import Mathlib

/-!
# Verification of the Swarm obstacle-avoidance decision engine

Shallow embedding of `src/swarm_core_FIXED.py` (the authoritative "v2.1 FIXED"
engine per the specification): the sensor vectorizer (`NPZEngine.create_sensor_vector`),
the concept store matcher (`NPZEngine.find_best_match`), the concept-to-action mapping
(`NPZEngine.concept_to_action`), the rule-based fallback ladder
(`ABSRBidecision._rule_based_decision`), the Lorenz chaos modulator, the
maneuver state machine, the decision arbiter (`ABSRBidecision.decide`) and the
learning feedback (`ABSRBidecision.feedback`).

Scalars are real numbers; machine-float rounding is not modelled.  Disk and
logging I/O is not modelled: the concept store content is a parameter, the
learning state starts empty (the missing-file startup path of
`_load_learning_data`), and `save_learning_data` is a no-op on the in-memory
state.  `time.time()` is passed in as an explicit `t` argument.
-/

namespace Swarm

/-- Size-38 feature vector, as in `SwarmConfig.vector_dim = 38`. -/
def Vec38 : Type := Fin 38 → ℝ

/-- `SwarmConfig` from `swarm_core_FIXED.py` (fields relevant to the decision
logic; the NPZ/learning file paths are I/O configuration and are not modelled). -/
structure SwarmConfig where
  max_sensor_range : ℝ := 400
  lorenz_sigma : ℝ := 10
  lorenz_rho : ℝ := 28
  lorenz_beta : ℝ := 8 / 3
  chaos_level : ℝ := 0.15
  chaos_enabled : Bool := true
  chaos_min_safe_distance : ℝ := 120
  learning_rate : ℝ := 0.1
  memory_size : ℕ := 1000
  ol_enabled : Bool := true
  ol_learning_rate : ℝ := 0.15
  ol_similarity_threshold : ℝ := 0.6
  robot_width : ℝ := 220
  robot_clearance : ℝ := 30
  danger_dist : ℝ := 60
  warning_dist : ℝ := 100

/-- The default configuration (`SwarmConfig()`). -/
noncomputable def defaultConfig : SwarmConfig := {}

/-- `SwarmConfig.get_min_passage_width`. -/
noncomputable def SwarmConfig.get_min_passage_width (cfg : SwarmConfig) : ℝ :=
  cfg.robot_width + cfg.robot_clearance * 2

/-- `SwarmConfig.is_tight_passage`. -/
noncomputable def SwarmConfig.is_tight_passage (cfg : SwarmConfig) (dist_left dist_right : ℝ) : Prop :=
  dist_left + dist_right < cfg.get_min_passage_width

noncomputable instance (cfg : SwarmConfig) (a b : ℝ) : Decidable (cfg.is_tight_passage a b) := by
  unfold SwarmConfig.is_tight_passage; infer_instance

/-- `SwarmConfig.get_safe_speed_for_passage`. -/
noncomputable def SwarmConfig.get_safe_speed_for_passage (cfg : SwarmConfig)
    (dist_left dist_right : ℝ) : ℝ :=
  let total_width := dist_left + dist_right
  let min_width := cfg.get_min_passage_width
  if total_width < min_width then 0
  else if total_width < min_width * 1.5 then 40
  else 90

/-- `ActionType` enum. -/
inductive Action where
  | FORWARD | TURN_LEFT | TURN_RIGHT | STOP | ESCAPE | REVERSE | EXPLORE
deriving DecidableEq

/-- The `source` strings appearing in decision dicts:
`'NPZ'`, `'OL'`, `'MANEUVER'`, `'ANTI_OSCILLATION'` in the FIXED engine, plus
`'RULE_FUSE'` and `'VAGUE'` which only the superseded v2.0 engine can emit. -/
inductive Source where
  | NPZ | OL | MANEUVER | ANTI_OSCILLATION | RULE_FUSE | VAGUE
deriving DecidableEq

/-- Turn directions recorded in `direction_memory` (strings `'LEFT'`/`'RIGHT'`). -/
inductive Dir where
  | LEFT | RIGHT
deriving DecidableEq, Fintype

/-- Phases of the emergency-escape maneuver (`'REVERSE'`, `'ALIGN_TURN'`). -/
inductive EPhase where
  | REVERSE | ALIGN_TURN
deriving DecidableEq

/-- The `current_maneuver` dict: either an `EMERGENCY_ESCAPE` record or an
`AVOIDANCE_TURN` record. -/
inductive Maneuver where
  | emergency (phase : EPhase) (step_count target_steps : ℕ) (turn_dir : Action)
  | avoidance (action : Action) (start_target_val : ℝ) (blocked_side : String)

/-- A decision dict as returned by `decide()`.  `category` is `none` when the
dict has no `'category'` key (maneuver / anti-oscillation decisions). -/
structure Decision where
  action : Action
  speed_left : ℝ
  speed_right : ℝ
  confidence : ℝ
  concept : String
  source : Source
  cycle : ℕ
  category : Option String

-- ---------------------------------------------------------------------------
-- Vector arithmetic
-- ---------------------------------------------------------------------------

/-- Dot product of two feature vectors (`np.dot`). -/
noncomputable def dotV (v w : Vec38) : ℝ := ∑ i, v i * w i

/-- Euclidean norm (`np.linalg.norm`). -/
noncomputable def normV (v : Vec38) : ℝ := Real.sqrt (dotV v v)

/-- `vec / norm` guarded by `if norm > 0` as in `create_sensor_vector` and
`_match_ol_vectors`. -/
noncomputable def normalizeV (v : Vec38) : Vec38 :=
  if 0 < normV v then fun i => v i / normV v else v

/-- The load-time normalization of `_load_npz`: `norms[norms == 0] = 1` then
divide. -/
noncomputable def loadNormalizeV (v : Vec38) : Vec38 :=
  fun i => v i / (if normV v = 0 then 1 else normV v)

-- ---------------------------------------------------------------------------
-- NPZEngine
-- ---------------------------------------------------------------------------

/-- The 38-dimensional vector built by `NPZEngine.create_sensor_vector` before
the final L2 normalization.  Indices not assigned by the code stay zero. -/
noncomputable def rawSensorVec (cfg : SwarmConfig)
    (dist_front dist_left dist_right speed_left speed_right : ℝ) : Vec38 :=
  let max_r := cfg.max_sensor_range
  let d_f := min (dist_front / max_r) 1
  let d_l := min (dist_left / max_r) 1
  let d_r := min (dist_right / max_r) 1
  let spd_l := min (speed_left / 150) 1
  let spd_r := min (speed_right / 150) 1
  fun i =>
    if i.val = 0 then d_f
    else if i.val = 1 then d_l
    else if i.val = 2 then d_r
    else if i.val = 3 then (d_f + d_l + d_r) / 3
    else if i.val = 4 then min d_f (min d_l d_r)
    else if i.val = 5 then max d_f (max d_l d_r)
    else if i.val = 6 then |d_l - d_r|
    else if i.val = 7 then (if d_f < 0.2 then 1 else 0)
    else if i.val = 8 then (if d_l < 0.3 ∨ d_r < 0.3 then 1 else 0)
    else if i.val = 9 then (if d_f > 0.8 ∧ d_l > 0.5 ∧ d_r > 0.5 then 1 else 0)
    else if i.val = 10 then spd_l
    else if i.val = 11 then spd_r
    else if i.val = 12 then (spd_l + spd_r) / 2
    else if i.val = 13 then |spd_l - spd_r|
    else if i.val = 14 then (if speed_left > 0 ∧ speed_right > 0 then 1 else 0)
    else if i.val = 20 then (if d_f < 0.3 then 1 else 0)
    else if i.val = 21 then (if d_l < 0.2 ∧ d_r > 0.5 then 1 else 0)
    else if i.val = 22 then (if d_r < 0.2 ∧ d_l > 0.5 then 1 else 0)
    else if i.val = 23 then (if d_f < 0.2 ∧ d_l < 0.2 ∧ d_r < 0.2 then 1 else 0)
    else if i.val = 24 then (if d_l > 0.8 ∧ d_r > 0.8 ∧ d_f > 0.5 then 1 else 0)
    else if i.val = 25 then (if d_l < 0.4 ∧ d_r < 0.4 ∧ d_f > 0.5 then 1 else 0)
    else if i.val = 30 then Real.tanh (d_f * 2 - 1)
    else if i.val = 31 then Real.tanh ((d_l - d_r) * 2)
    else if i.val = 32 then 1 / (1 + Real.exp (-5 * (d_f - 0.3)))
    else 0

/-- `NPZEngine.create_sensor_vector`: the raw vector followed by the final
guarded L2 normalization. -/
noncomputable def createSensorVector (cfg : SwarmConfig)
    (dist_front dist_left dist_right speed_left speed_right : ℝ) : Vec38 :=
  normalizeV (rawSensorVec cfg dist_front dist_left dist_right speed_left speed_right)

/-- One persisted concept: parallel entries of the `words` / `vectors` /
`categories` arrays. -/
structure StoredConcept where
  word : String
  vec : Vec38
  category : String

/-- The state of `NPZEngine` after `_load_npz`: `loaded` flag plus the stored
concepts.  When `loaded` is true, `vec` holds the load-normalized rows of
`vectors_norm`. -/
structure NPZStore where
  loaded : Bool
  concepts : List StoredConcept

/-- A store whose backing file was missing or corrupt (`loaded = False`). -/
def unloadedStore : NPZStore := { loaded := false, concepts := [] }

/-- Successful `_load_npz` on the given raw triples: vectors are normalized at
load time. -/
noncomputable def loadStore (raw : List StoredConcept) : NPZStore :=
  { loaded := true,
    concepts := raw.map fun c => { c with vec := loadNormalizeV c.vec } }

/-- One step of the running-argmax fold over the stored concepts. -/
noncomputable def bestFold (v : Vec38) (acc : Option (String × ℝ × String))
    (c : StoredConcept) : Option (String × ℝ × String) :=
  match acc with
  | none => some (c.word, dotV c.vec v, c.category)
  | some (w, s, k) =>
      if dotV c.vec v > s then some (c.word, dotV c.vec v, c.category)
      else some (w, s, k)

/-- `np.argmax` over the similarities, folded left keeping the first maximum
(strict `>` replaces, ties keep the earlier index). -/
noncomputable def bestOver (v : Vec38) (l : List StoredConcept) :
    Option (String × ℝ × String) :=
  l.foldl (bestFold v) none

/-- `NPZEngine.find_best_match`.  The `none` branch of `bestOver` corresponds
to a loaded store with an empty concept array, on which the original
`np.argmax` call would raise; theorems about loaded stores assume nonemptiness. -/
noncomputable def findBestMatch (npz : NPZStore) (sensor_vector : Vec38)
    (tolerance : ℝ) : String × ℝ × String :=
  if npz.loaded = false then ("FORWARD", 0, "fallback")
  else
    match bestOver sensor_vector npz.concepts with
    | none => ("FORWARD", 0, "fallback")
    | some (w, s, k) =>
        if s < tolerance then ("FORWARD", s, "low_confidence") else (w, s, k)

/-- `frag` occurs as a contiguous substring of `s` (Python's `frag in s`),
on the character lists. -/
def prefixLst : List Char → List Char → Bool
  | [], _ => true
  | _ :: _, [] => false
  | a :: as, b :: bs => a = b && prefixLst as bs

/-- Contiguous-substring test used for `'FRAG' in concept_upper`. -/
def infixLst : List Char → List Char → Bool
  | frag, [] => frag.isEmpty
  | frag, b :: rest => prefixLst frag (b :: rest) || infixLst frag rest

/-- Python `frag in s` on strings. -/
def containsFrag (s frag : String) : Bool := infixLst frag.toList s.toList

/-- `NPZEngine.concept_to_action` applied to the upper-cased concept string:
the ordered substring-rule table. -/
noncomputable def conceptToActionUpper (c : String) : Action × ℝ × ℝ :=
  if containsFrag c "TRAPPED" ∨ containsFrag c "EMERGENCY_ESCAPE" then (Action.ESCAPE, -120, 120)
  else if containsFrag c "COLLISION" ∨ containsFrag c "CAUTIOUS_STOP" then (Action.STOP, 0, 0)
  else if containsFrag c "LEFT_WALL" ∨ containsFrag c "LEFT_OBSTACLE" then (Action.TURN_RIGHT, 140, 40)
  else if containsFrag c "RIGHT_WALL" ∨ containsFrag c "RIGHT_OBSTACLE" then (Action.TURN_LEFT, 40, 140)
  else if containsFrag c "FRONT_OBSTACLE_RIGHT" then (Action.TURN_LEFT, 40, 140)
  else if containsFrag c "FRONT_OBSTACLE_LEFT" then (Action.TURN_RIGHT, 140, 40)
  else if containsFrag c "EXPLORATION_LEFT" then (Action.TURN_LEFT, 30, 150)
  else if containsFrag c "EXPLORATION_RIGHT" then (Action.TURN_RIGHT, 150, 30)
  else if containsFrag c "CORRIDOR" then (Action.FORWARD, 90, 90)
  else if containsFrag c "CLEAR_PATH" then (Action.FORWARD, 120, 120)
  else if containsFrag c "NORMAL" ∨ containsFrag c "FORWARD" then (Action.FORWARD, 100, 100)
  else if containsFrag c "ESCAPE" ∨ containsFrag c "STUCK" then (Action.ESCAPE, -120, 120)
  else if containsFrag c "TURN_LEFT" ∨ containsFrag c "LEFT" then (Action.TURN_LEFT, 30, 150)
  else if containsFrag c "TURN_RIGHT" ∨ containsFrag c "RIGHT" then (Action.TURN_RIGHT, 150, 30)
  else if containsFrag c "STOP" then (Action.STOP, 0, 0)
  else (Action.FORWARD, 100, 100)

/-- `NPZEngine.concept_to_action`. -/
noncomputable def conceptToAction (concept : String) : Action × ℝ × ℝ :=
  conceptToActionUpper concept.toUpper

-- ---------------------------------------------------------------------------
-- Rule-based fallback ladder
-- ---------------------------------------------------------------------------

/-- `ABSRBidecision._rule_based_decision`: the deterministic distance-threshold
ladder producing `(action, speed_left, speed_right, label)`. -/
noncomputable def ruleBasedDecision (cfg : SwarmConfig)
    (dist_front dist_left dist_right : ℝ) : Action × ℝ × ℝ × String :=
  let max_r := cfg.max_sensor_range
  let d_f := dist_front / max_r
  let d_l := dist_left / max_r
  let d_r := dist_right / max_r
  let side_critical := 60 / max_r
  if (d_l < side_critical ∧ d_r < side_critical) ∨
     (d_f < 0.15 ∧ d_l < 0.25 ∧ d_r < 0.25) then
    (Action.ESCAPE, -100, 100, "TRAPPED_ESCAPE")
  else if d_r < side_critical then (Action.TURN_LEFT, 40, 140, "SIDE_COLLISION_RIGHT")
  else if d_l < side_critical then (Action.TURN_RIGHT, 140, 40, "SIDE_COLLISION_LEFT")
  else if d_f < 0.25 then
    (if d_l > d_r then (Action.TURN_LEFT, 30, 130, "EMERGENCY_BRAKE_LEFT")
     else (Action.TURN_RIGHT, 130, 30, "EMERGENCY_BRAKE_RIGHT"))
  else if d_f < cfg.danger_dist / max_r then
    (if d_l > d_r then (Action.TURN_LEFT, 40, 110, "AVOID_FRONT_LEFT")
     else (Action.TURN_RIGHT, 110, 40, "AVOID_FRONT_RIGHT"))
  else if d_f < cfg.warning_dist / max_r then
    (if d_l > d_r then (Action.TURN_LEFT, 50, 90, "WARNING_STEER_LEFT")
     else (Action.TURN_RIGHT, 90, 50, "WARNING_STEER_RIGHT"))
  else if dist_left + dist_right < cfg.get_min_passage_width then
    (if d_l > d_r then (Action.TURN_LEFT, 40, 80, "TOO_NARROW_LEFT")
     else (Action.TURN_RIGHT, 80, 40, "TOO_NARROW_RIGHT"))
  else if cfg.is_tight_passage dist_left dist_right then
    let correction := (dist_left - dist_right) / 2 * 0.3
    let speed := cfg.get_safe_speed_for_passage dist_left dist_right
    (Action.FORWARD, speed - correction, speed + correction, "TIGHT_PASSAGE")
  else if d_l < 0.4 ∧ d_r < 0.4 ∧ d_f > 0.4 then
    let bias := (d_l - d_r) * 20
    (Action.FORWARD, 80 - bias, 80 + bias, "CORRIDOR")
  else if |d_l - d_r| > 0.15 then
    (if d_l > d_r then (Action.FORWARD, 80, 130, "SEEK_SPACE_LEFT")
     else (Action.FORWARD, 130, 80, "SEEK_SPACE_RIGHT"))
  else if d_f > 0.6 ∧ d_l > 0.3 ∧ d_r > 0.3 then
    (Action.FORWARD, 120, 120, "CLEAR_PATH")
  else (Action.FORWARD, 80, 80, "DEFAULT_CAUTIOUS")

-- ---------------------------------------------------------------------------
-- Engine state (ABSRBidecision instance attributes)
-- ---------------------------------------------------------------------------

/-- The mutable attributes of an `ABSRBidecision` instance that the decision
and feedback logic reads or writes.  Dicts are association lists (Python dicts
preserve insertion order); bounded deques are lists trimmed at the front. -/
structure AbsrState where
  bll_weights : List (String × ℝ)
  bll_history : List (String × Bool × ℝ)
  ol_vectors : List (String × Vec38)
  ol_usage_count : ℕ
  lorenz_state : ℝ × ℝ × ℝ
  chaos_history : List (ℝ × ℝ × ℝ)
  last_decision : Option Decision
  last_sensor_vec : Option Vec38
  decision_count : ℕ
  direction_memory : List Dir
  last_turn_direction : Option Dir
  turn_streak : ℕ
  preferred_escape_direction : Option Dir
  oscillation_detected : Bool
  consecutive_direction_changes : ℕ
  current_maneuver : Option Maneuver
  last_maneuver_turn : Option Action
  last_maneuver_time : ℝ

/-- The state right after `__init__` when no persisted learning files exist
(the missing-file path of `_load_learning_data` leaves both maps empty). -/
noncomputable def initAbsrState : AbsrState where
  bll_weights := []
  bll_history := []
  ol_vectors := []
  ol_usage_count := 0
  lorenz_state := (0.1, 0.2, 0.3)
  chaos_history := []
  last_decision := none
  last_sensor_vec := none
  decision_count := 0
  direction_memory := []
  last_turn_direction := none
  turn_streak := 0
  preferred_escape_direction := none
  oscillation_detected := false
  consecutive_direction_changes := 0
  current_maneuver := none
  last_maneuver_turn := none
  last_maneuver_time := 0

/-- Association-list lookup (Python `dict.get`). -/
def lookupA {V : Type} : List (String × V) → String → Option V
  | [], _ => none
  | (k, v) :: t, key => if k = key then some v else lookupA t key

/-- Association-list update: overwrite in place, append at the end if new
(Python dict assignment preserves insertion order). -/
def insertA {V : Type} : List (String × V) → String → V → List (String × V)
  | [], key, v => [(key, v)]
  | (k, w) :: t, key, v => if k = key then (k, v) :: t else (k, w) :: insertA t key v

/-- Association-list deletion (Python `del d[key]`). -/
def eraseA {V : Type} : List (String × V) → String → List (String × V)
  | [], _ => []
  | (k, w) :: t, key => if k = key then t else (k, w) :: eraseA t key

/-- `deque(maxlen = n)` trimming after an append: drop from the front. -/
def trimDeque {α : Type} (n : ℕ) (l : List α) : List α := l.drop (l.length - n)

-- ---------------------------------------------------------------------------
-- Lorenz chaos modulator
-- ---------------------------------------------------------------------------

/-- One Euler step of the Lorenz system (`_lorenz_step`, state update only),
with `dt = 0.01`. -/
noncomputable def lorenzNext (cfg : SwarmConfig) (st : ℝ × ℝ × ℝ) : ℝ × ℝ × ℝ :=
  let x := st.1
  let y := st.2.1
  let z := st.2.2
  let dt : ℝ := 0.01
  let dx := cfg.lorenz_sigma * (y - x)
  let dy := x * (cfg.lorenz_rho - z) - y
  let dz := x * y - cfg.lorenz_beta * z
  (x + dx * dt, y + dy * dt, z + dz * dt)

/-- The tanh-normalized outputs of `_lorenz_step`. -/
noncomputable def lorenzOutputs (st : ℝ × ℝ × ℝ) : ℝ × ℝ × ℝ :=
  (Real.tanh (st.1 / 20), Real.tanh (st.2.1 / 25), Real.tanh (st.2.2 / 30))

/-- `ABSRBidecision._lorenz_step`: advance the state, record and return the
normalized outputs. -/
noncomputable def lorenzStep (cfg : SwarmConfig) (s : AbsrState) :
    (ℝ × ℝ × ℝ) × AbsrState :=
  let st := lorenzNext cfg s.lorenz_state
  let out := lorenzOutputs st
  (out, { s with lorenz_state := st,
                 chaos_history := trimDeque 100 (s.chaos_history ++ [out]) })

/-- `_chaos_blend_action`, speed part (the returned action is always the base
action, so only the speeds are produced here). -/
noncomputable def chaosBlendSpeeds (cfg : SwarmConfig) (base : ℝ × ℝ)
    (chaos_vec : ℝ × ℝ × ℝ) : ℝ × ℝ :=
  let intensity := |chaos_vec.2.2| * cfg.chaos_level * 0.5
  let direction_blend := chaos_vec.1 * 20 * intensity
  let speed_modifier := 1 + chaos_vec.2.1 * 0.2 * intensity
  (max 0 (min 150 (base.1 * speed_modifier + direction_blend)),
   max 0 (min 150 (base.2 * speed_modifier - direction_blend)))

-- ---------------------------------------------------------------------------
-- Direction memory and oscillation detection
-- ---------------------------------------------------------------------------

/-- Direction extracted from an action-type string by
`_update_direction_memory` when `action_type` is given
(`'TURN_LEFT' in action_type` / `'TURN_RIGHT' in action_type`). -/
def dirOfActionType (a : Action) : Option Dir :=
  if a = Action.TURN_LEFT then some Dir.LEFT
  else if a = Action.TURN_RIGHT then some Dir.RIGHT
  else none

/-- `_update_direction_memory`: append to the capacity-20 deque and maintain
the change counter, streak and preferred direction. -/
def updateDirectionMemory (s : AbsrState) (dir : Option Dir) : AbsrState :=
  match dir with
  | none => s
  | some d =>
    let mem := trimDeque 20 (s.direction_memory ++ [d])
    let cdc :=
      if s.direction_memory = [] then s.consecutive_direction_changes
      else if s.direction_memory.getLast? ≠ some d then
        s.consecutive_direction_changes + 1
      else 0
    if s.last_turn_direction = some d then
      let streak := s.turn_streak + 1
      { s with direction_memory := mem, consecutive_direction_changes := cdc,
               turn_streak := streak,
               preferred_escape_direction :=
                 if streak ≥ 3 then some d else s.preferred_escape_direction }
    else
      { s with direction_memory := mem, consecutive_direction_changes := cdc,
               turn_streak := 1, last_turn_direction := some d }

/-- Number of adjacent direction changes in a list
(`sum(1 for i in range(1, len(recent)) if recent[i] != recent[i-1])`). -/
def countChanges : List Dir → ℕ
  | a :: b :: t => (if a ≠ b then 1 else 0) + countChanges (b :: t)
  | _ => 0

/-- The last `n` entries of a list (`list(deque)[-n:]`). -/
def lastN {α : Type} (n : ℕ) (l : List α) : List α := l.drop (l.length - n)

/-- `ABSRBidecision._detect_oscillation`. -/
def detectOscillation (mem : List Dir) : Bool :=
  if mem.length < 6 then false
  else if lastN 6 mem = [Dir.LEFT, Dir.RIGHT, Dir.LEFT, Dir.RIGHT, Dir.LEFT, Dir.RIGHT] ∨
          lastN 6 mem = [Dir.RIGHT, Dir.LEFT, Dir.RIGHT, Dir.LEFT, Dir.RIGHT, Dir.LEFT] then
    true
  else if 4 ≤ countChanges (lastN 6 mem) then true
  else false

-- ---------------------------------------------------------------------------
-- OL matching
-- ---------------------------------------------------------------------------

/-- One step of the best-similarity fold of `_match_ol_vectors`: skip
zero-norm entries, otherwise compare the cosine similarity against the running
best (strict `>`). -/
noncomputable def olFold (sn : Vec38) (acc : String × ℝ) (p : String × Vec38) :
    String × ℝ :=
  if 0 < normV p.2 then
    if dotV sn (fun i => p.2 i / normV p.2) > acc.2
    then (p.1, dotV sn (fun i => p.2 i / normV p.2))
    else acc
  else acc

/-- `ABSRBidecision._match_ol_vectors`. -/
noncomputable def matchOL (cfg : SwarmConfig) (ol : List (String × Vec38))
    (sensor_vec : Vec38) : String × ℝ :=
  if cfg.ol_enabled = false ∨ ol.isEmpty = true then ("", 0)
  else if 0 < normV sensor_vec then
    ol.foldl (olFold (fun i => sensor_vec i / normV sensor_vec)) ("", 0)
  else ("", 0)

-- ---------------------------------------------------------------------------
-- Maneuver state machine
-- ---------------------------------------------------------------------------

/-- `_execute_maneuver_step`: the fixed shape of every maneuver decision. -/
def maneuverDecision (a : Action) (sl sr : ℝ) (concept : String) (cyc : ℕ) : Decision where
  action := a
  speed_left := sl
  speed_right := sr
  confidence := 1
  concept := concept
  source := Source.MANEUVER
  cycle := cyc
  category := none

/-- `_check_emergency_condition` with `CRITICAL = 60`. -/
def checkEmergencyCondition (df dl dr : ℝ) : Prop :=
  df < 60 ∨ (dl < 60 ∧ dr < 60) ∨ dl < 60 / 2 ∨ dr < 60 / 2

noncomputable instance (df dl dr : ℝ) : Decidable (checkEmergencyCondition df dl dr) := by
  unfold checkEmergencyCondition; infer_instance

/-- `_check_avoidance_condition` with `AVOID_THRESH = 200` and hysteresis 20. -/
def checkAvoidanceCondition (_df dl dr : ℝ) : Prop :=
  (dl < 200 ∨ dr < 200) ∧ |dl - dr| > 20

noncomputable instance (df dl dr : ℝ) : Decidable (checkAvoidanceCondition df dl dr) := by
  unfold checkAvoidanceCondition; infer_instance

/-- `_start_emergency_maneuver`. -/
noncomputable def startEmergencyManeuver (s : AbsrState) (dl dr : ℝ) :
    Decision × AbsrState :=
  let turn_dir := if dl < dr then Action.TURN_RIGHT else Action.TURN_LEFT
  let s' := { s with current_maneuver := some (Maneuver.emergency EPhase.REVERSE 0 20 turn_dir) }
  (maneuverDecision Action.REVERSE (-100) (-100) "EMERGENCY_START" s'.decision_count, s')

/-- `_start_avoidance_maneuver`: oscillation guard, hysteresis guard, then the
actual avoidance-turn start. -/
noncomputable def startAvoidanceManeuver (s : AbsrState) (t dl dr : ℝ) :
    Decision × AbsrState :=
  if detectOscillation s.direction_memory then
    ({ action := Action.FORWARD, speed_left := 70, speed_right := 70,
       confidence := 1, concept := "FORCE_FORWARD",
       source := Source.ANTI_OSCILLATION, cycle := s.decision_count,
       category := none },
     { s with oscillation_detected := true })
  else
    let a := if dl < dr then Action.TURN_RIGHT else Action.TURN_LEFT
    let start_val := if dl < dr then dr else dl
    let blocked := if dl < dr then "left" else "right"
    if s.last_maneuver_turn ≠ some a ∧ t - s.last_maneuver_time < 2 then
      ({ action := Action.FORWARD, speed_left := 60, speed_right := 60,
         confidence := 1, concept := "HYSTERESIS_FORWARD",
         source := Source.ANTI_OSCILLATION, cycle := s.decision_count,
         category := none }, s)
    else
      let s1 := updateDirectionMemory s (dirOfActionType a)
      let s2 := { s1 with current_maneuver := some (Maneuver.avoidance a start_val blocked) }
      (maneuverDecision a 120 120 "AVOID_START" s2.decision_count, s2)

/-- `_execute_maneuver`: one step of the active maneuver. -/
noncomputable def executeManeuver (m : Maneuver) (s : AbsrState) (t dl dr : ℝ) :
    Decision × AbsrState :=
  match m with
  | Maneuver.emergency phase c tgt turn_dir =>
    match phase with
    | EPhase.REVERSE =>
      let c' := c + 1
      let phase' := if c' ≥ tgt then EPhase.ALIGN_TURN else EPhase.REVERSE
      let s' := { s with current_maneuver := some (Maneuver.emergency phase' c' tgt turn_dir) }
      (maneuverDecision Action.REVERSE (-100) (-100)
        ("REVERSING_" ++ toString c') s'.decision_count, s')
    | EPhase.ALIGN_TURN =>
      if dl > 100 ∧ dr > 100 then
        (maneuverDecision Action.STOP 0 0 "SAFE_REACHED" s.decision_count,
         { s with current_maneuver := none })
      else
        let sl : ℝ := if turn_dir = Action.TURN_RIGHT then 40 else 120
        let sr : ℝ := if turn_dir = Action.TURN_RIGHT then 120 else 40
        (maneuverDecision turn_dir sl sr "ALIGNING_TO_SAFE" s.decision_count, s)
  | Maneuver.avoidance a start_val _blocked =>
    let cur := if a = Action.TURN_RIGHT then dr else dl
    if cur - start_val ≥ 20 ∨ cur > 300 then
      (maneuverDecision Action.FORWARD 100 100 "PATH_IMPROVED" s.decision_count,
       { s with last_maneuver_turn := some a, last_maneuver_time := t,
                current_maneuver := none })
    else
      let sl : ℝ := if a = Action.TURN_RIGHT then 40 else 120
      let sr : ℝ := if a = Action.TURN_RIGHT then 120 else 40
      (maneuverDecision a sl sr "AVOIDING_OBSTACLE" s.decision_count, s)

-- ---------------------------------------------------------------------------
-- The decision arbiter
-- ---------------------------------------------------------------------------

/-- Step 4 of `decide()`: the standard NPZ + OL + chaos decision path. -/
noncomputable def standardDecision (cfg : SwarmConfig) (npz : NPZStore)
    (s : AbsrState) (df dl dr sl sr : ℝ) : Decision × AbsrState :=
  let sensor_vec := createSensorVector cfg df dl dr sl sr
  let s1 := { s with last_sensor_vec := some sensor_vec }
  let min_dist := min df (min dl dr)
  let cres :=
    if cfg.chaos_enabled = true ∧ min_dist > cfg.chaos_min_safe_distance
    then lorenzStep cfg s1
    else (((0 : ℝ), (0 : ℝ), (0 : ℝ)), s1)
  let chaos_vec := cres.1
  let s2 := cres.2
  let nres := findBestMatch npz sensor_vec 0.25
  let npz_concept := nres.1
  let npz_similarity := nres.2.1
  let category := nres.2.2
  let ores := matchOL cfg s2.ol_vectors sensor_vec
  let useOL : Prop :=
    cfg.ol_enabled = true ∧ ores.2 > npz_similarity ∧
      ores.2 > cfg.ol_similarity_threshold
  let concept := if useOL then ores.1 else npz_concept
  let similarity := if useOL then ores.2 else npz_similarity
  let source := if useOL then Source.OL else Source.NPZ
  let s3 := if useOL then { s2 with ol_usage_count := s2.ol_usage_count + 1 } else s2
  let bll_boost := (lookupA s2.bll_weights category).getD 1
  let adjusted_sim := similarity * bll_boost
  let act := if adjusted_sim > 0.5 then (conceptToAction concept).1 else Action.FORWARD
  let spd : ℝ × ℝ :=
    if adjusted_sim > 0.5 then ((conceptToAction concept).2.1, (conceptToAction concept).2.2)
    else (80, 80)
  let concept' := if adjusted_sim > 0.5 then concept else "FORWARD_UNCERTAIN"
  let speeds :=
    if act = Action.FORWARD ∧ chaos_vec ≠ ((0 : ℝ), (0 : ℝ), (0 : ℝ))
    then chaosBlendSpeeds cfg spd chaos_vec else spd
  let d : Decision :=
    { action := act, speed_left := speeds.1, speed_right := speeds.2,
      confidence := adjusted_sim, concept := concept', source := source,
      cycle := s3.decision_count, category := some category }
  (d, { s3 with last_decision := some d })

/-- `ABSRBidecision.decide` of the FIXED engine: maneuver continuation, then the
emergency trigger, then the avoidance trigger, then the standard path.
`t` is the wall-clock time (`time.time()`). -/
noncomputable def absrDecide (cfg : SwarmConfig) (npz : NPZStore) (s0 : AbsrState)
    (t df dl dr sl sr : ℝ) : Decision × AbsrState :=
  let s := { s0 with decision_count := s0.decision_count + 1 }
  match s0.current_maneuver with
  | some m => executeManeuver m s t dl dr
  | none =>
    if checkEmergencyCondition df dl dr then startEmergencyManeuver s dl dr
    else if checkAvoidanceCondition df dl dr then startAvoidanceManeuver s t dl dr
    else standardDecision cfg npz s df dl dr sl sr

/-- One `decide()` call per element of the input list, threading the state. -/
noncomputable def absrRun (cfg : SwarmConfig) (npz : NPZStore) :
    AbsrState → List (ℝ × ℝ × ℝ × ℝ × ℝ × ℝ) → List Decision
  | _, [] => []
  | s, i :: rest =>
    let r := absrDecide cfg npz s i.1 i.2.1 i.2.2.1 i.2.2.2.1 i.2.2.2.2.1 i.2.2.2.2.2
    r.1 :: absrRun cfg npz r.2 rest

-- ---------------------------------------------------------------------------
-- Feedback (BLL + OL learning)
-- ---------------------------------------------------------------------------

/-- The category actually used by `feedback`: the argument if given, else the
`'category'` entry of the last decision (default `'unknown'`), else `None`. -/
def resolveCategory (s : AbsrState) (category : Option String) : Option String :=
  match category with
  | some c => some c
  | none =>
    match s.last_decision with
    | some d => some (d.category.getD "unknown")
    | none => none

/-- The BLL-update half of `ABSRBidecision.feedback`: resolve the category
(auto-detected from the last decision when `None`), then adjust and clamp the
per-category weight and append to the history deque. -/
noncomputable def feedbackBLL (cfg : SwarmConfig) (s : AbsrState) (success : Bool)
    (category : Option String) : AbsrState :=
  match resolveCategory s category with
  | none => s
  | some c =>
    if c = "" then s
    else
      let current := (lookupA s.bll_weights c).getD 1
      let delta := if success then cfg.learning_rate else -cfg.learning_rate
      let w := max 0.5 (min 1.5 (current + delta))
      { s with bll_weights := insertA s.bll_weights c w,
               bll_history :=
                 trimDeque cfg.memory_size (s.bll_history ++ [(c, success, w)]) }

/-- The exponential-moving-average vector update of a successful OL feedback:
`alpha * last + (1 - alpha) * old`. -/
noncomputable def emaVec (cfg : SwarmConfig) (v old : Vec38) : Vec38 :=
  fun i => cfg.ol_learning_rate * v i + (1 - cfg.ol_learning_rate) * old i

/-- The decay applied to an OL vector on failure feedback (`*= 0.95`). -/
noncomputable def decayVec (old : Vec38) : Vec38 := fun i => old i * 0.95

/-- The OL-update half of `ABSRBidecision.feedback`: reinforce (insert or EMA)
on success, decay and possibly delete on failure. -/
noncomputable def feedbackOL (cfg : SwarmConfig) (s : AbsrState) (success : Bool) :
    AbsrState :=
  match s.last_sensor_vec, s.last_decision with
  | some v, some d =>
    if cfg.ol_enabled = true then
      if success then
        match lookupA s.ol_vectors d.concept with
        | none => { s with ol_vectors := insertA s.ol_vectors d.concept v }
        | some old =>
          { s with ol_vectors := insertA s.ol_vectors d.concept (emaVec cfg v old) }
      else
        match lookupA s.ol_vectors d.concept with
        | none => s
        | some old =>
          if normV (decayVec old) < 0.1 then
            { s with ol_vectors := eraseA s.ol_vectors d.concept }
          else
            { s with ol_vectors := insertA s.ol_vectors d.concept (decayVec old) }
    else s
  | _, _ => s

/-- `ABSRBidecision.feedback`: the BLL update followed by the OL update.  The
periodic `save_learning_data` call performs disk I/O only and does not change
the in-memory state. -/
noncomputable def absrFeedback (cfg : SwarmConfig) (s : AbsrState) (success : Bool)
    (category : Option String) : AbsrState :=
  feedbackOL cfg (feedbackBLL cfg s success category) success

-- ---------------------------------------------------------------------------
-- Specification-side definitions (for refinement-style claims)
-- ---------------------------------------------------------------------------

/-- Spec wording of the oscillation detector (§4.6): at least 6 recorded turn
directions, and the last 6 form a strictly alternating pattern (every adjacent
pair differs) or contain at least 4 direction changes. -/
def oscillationSpec (mem : List Dir) : Prop :=
  6 ≤ mem.length ∧
    (List.Chain' (fun a b => a ≠ b) (lastN 6 mem) ∨ 4 ≤ countChanges (lastN 6 mem))

-- ---------------------------------------------------------------------------
-- Association-list lemmas
-- ---------------------------------------------------------------------------

theorem lookupA_insertA_self {V : Type} (l : List (String × V)) (k : String) (v : V) :
    lookupA (insertA l k v) k = some v := by
  induction l with
  | nil => simp [insertA, lookupA]
  | cons p t ih =>
    obtain ⟨pk, pv⟩ := p
    by_cases h : pk = k
    · simp [insertA, h, lookupA]
    · simp [insertA, h, lookupA, ih]

theorem lookupA_mem {V : Type} {l : List (String × V)} {k : String} {v : V}
    (h : lookupA l k = some v) : (k, v) ∈ l := by
  induction l with
  | nil => simp [lookupA] at h
  | cons p t ih =>
    obtain ⟨pk, pv⟩ := p
    by_cases hk : pk = k
    · simp [lookupA, hk] at h
      simp [hk, h]
    · simp [lookupA, hk] at h
      exact List.mem_cons_of_mem _ (ih h)

-- ---------------------------------------------------------------------------
-- C9: the oscillation detector
-- ---------------------------------------------------------------------------

theorem countChanges_of_chain' :
    ∀ l : List Dir, List.Chain' (fun a b => a ≠ b) l → countChanges l = l.length - 1
  | [], _ => rfl
  | [_], _ => rfl
  | a :: b :: t, h => by
    rw [List.chain'_cons] at h
    have ih := countChanges_of_chain' (b :: t) h.2
    unfold countChanges
    rw [ih, if_pos h.1]
    simp only [List.length_cons]
    omega

theorem lastN_length_of_le {α : Type} (n : ℕ) (l : List α) (h : n ≤ l.length) :
    (lastN n l).length = n := by
  unfold lastN
  rw [List.length_drop]
  omega

/-- C9: the oscillation detector flags exactly when the direction memory holds
at least 6 recorded turn directions and the last 6 of them form a strictly
alternating pattern or contain at least 4 direction changes; with fewer than 6
recorded directions it never flags. -/
theorem C9_detect_oscillation_iff (mem : List Dir) :
    detectOscillation mem = true ↔ oscillationSpec mem := by
  unfold detectOscillation oscillationSpec
  by_cases h : mem.length < 6
  · simp only [h, if_pos]
    constructor
    · intro hb; cases hb
    · rintro ⟨h6, -⟩; omega
  · push_neg at h
    have hlen : (lastN 6 mem).length = 6 := lastN_length_of_le 6 mem h
    rw [if_neg (by omega)]
    constructor
    · intro hb
      refine ⟨h, ?_⟩
      split at hb
      next hp =>
        rcases hp with hp | hp <;> rw [hp] <;> exact Or.inl (by simp [List.chain'_cons])
      next hp =>
        split at hb
        next hc => exact Or.inr hc
        next => cases hb
    · rintro ⟨-, hd | hd⟩
      · have hc4 : 4 ≤ countChanges (lastN 6 mem) := by
          rw [countChanges_of_chain' _ hd, hlen]; omega
        simp [hc4]
      · simp [hd]

-- ---------------------------------------------------------------------------
-- Feedback lemmas and C7
-- ---------------------------------------------------------------------------

theorem clamp_mem (x : ℝ) :
    (0.5 : ℝ) ≤ max 0.5 (min 1.5 x) ∧ max 0.5 (min 1.5 x) ≤ 1.5 :=
  ⟨le_max_left _ _, max_le (by norm_num) (min_le_left _ _)⟩

theorem feedbackOL_bll_weights (cfg : SwarmConfig) (s : AbsrState) (success : Bool) :
    (feedbackOL cfg s success).bll_weights = s.bll_weights := by
  unfold feedbackOL
  cases s.last_sensor_vec <;> cases s.last_decision
  · rfl
  · rfl
  · rfl
  · (repeat' split) <;> rfl

theorem feedbackOL_of_no_sensor (cfg : SwarmConfig) (s : AbsrState) (success : Bool)
    (h : s.last_sensor_vec = none) : feedbackOL cfg s success = s := by
  unfold feedbackOL
  rw [h]

/-- The clamped weight written by a feedback call for category `c`. -/
noncomputable def bllNewWeight (cfg : SwarmConfig) (s : AbsrState) (success : Bool)
    (c : String) : ℝ :=
  max 0.5 (min 1.5 ((lookupA s.bll_weights c).getD 1 +
    (if success then cfg.learning_rate else -cfg.learning_rate)))

theorem feedbackBLL_some (cfg : SwarmConfig) (s : AbsrState) (success : Bool)
    (c : String) (hc : ¬ c = "") :
    feedbackBLL cfg s success (some c) =
      { s with
        bll_weights := insertA s.bll_weights c (bllNewWeight cfg s success c),
        bll_history := trimDeque cfg.memory_size
          (s.bll_history ++ [(c, success, bllNewWeight cfg s success c)]) } := by
  unfold feedbackBLL bllNewWeight
  simp only [resolveCategory]
  rw [if_neg hc]

/-- C7 (amended): a feedback call on a nonempty category `c` sets that
category's BLL weight to `clamp(current ± learning_rate)` with default 1.0 on
first touch, and the written weight always lies in `[0.5, 1.5]`. -/
theorem C7_bll_weight_update (cfg : SwarmConfig) (s : AbsrState) (success : Bool)
    (c : String) (hc : c ≠ "") :
    lookupA (absrFeedback cfg s success (some c)).bll_weights c =
      some (bllNewWeight cfg s success c) ∧
    (0.5 : ℝ) ≤ bllNewWeight cfg s success c ∧ bllNewWeight cfg s success c ≤ 1.5 := by
  refine ⟨?_, clamp_mem _⟩
  unfold absrFeedback
  rw [feedbackOL_bll_weights, feedbackBLL_some cfg s success c hc]
  exact lookupA_insertA_self _ _ _

/-- Witness for `C7_bll_weight_update` at a concrete input: the very first
success feedback on category `navigation` stores weight 1.1. -/
theorem C7_bll_weight_update_witness :
    ("navigation" : String) ≠ "" ∧
    lookupA (absrFeedback defaultConfig initAbsrState true (some "navigation")).bll_weights
      "navigation" = some 1.1 := by
  have h := C7_bll_weight_update defaultConfig initAbsrState true "navigation" (by simp)
  refine ⟨by simp, ?_⟩
  rw [h.1]
  norm_num [bllNewWeight, initAbsrState, lookupA, defaultConfig, max_def, min_def]

/-- One successful `feedback(True, 'navigation')` call on the default engine. -/
noncomputable def feedNav (s : AbsrState) : AbsrState :=
  absrFeedback defaultConfig s true (some "navigation")

theorem feedNav_step (s : AbsrState) (h : s.last_sensor_vec = none) :
    feedNav s =
      { s with
        bll_weights := insertA s.bll_weights "navigation"
          (max 0.5 (min 1.5 ((lookupA s.bll_weights "navigation").getD 1 + 0.1))),
        bll_history := trimDeque 1000 (s.bll_history ++ [("navigation", true,
          max 0.5 (min 1.5 ((lookupA s.bll_weights "navigation").getD 1 + 0.1)))]) } := by
  unfold feedNav absrFeedback
  rw [feedbackBLL_some _ _ _ _ (by simp)]
  rw [feedbackOL_of_no_sensor _ _ _ (by simp [h])]
  norm_num [bllNewWeight, defaultConfig]

theorem feedNav_single (s : AbsrState) (w : ℝ) (h : s.last_sensor_vec = none)
    (hw : s.bll_weights = [("navigation", w)]) :
    (feedNav s).bll_weights = [("navigation", max 0.5 (min 1.5 (w + 0.1)))] ∧
    (feedNav s).last_sensor_vec = none ∧
    (feedNav s).ol_vectors = s.ol_vectors ∧
    (feedNav s).current_maneuver = s.current_maneuver := by
  rw [feedNav_step s h]
  refine ⟨?_, h, rfl, rfl⟩
  rw [hw]
  simp [lookupA, insertA]

/-- C7 counterexample: starting from a fresh engine, five success feedbacks on
one category drive its weight to the clamp boundary 1.5, and the sixth success
feedback leaves it at 1.5 — a change of zero, not of plus or minus
`learning_rate`. -/
theorem C7_counterexample :
    lookupA (feedNav (feedNav (feedNav (feedNav (feedNav
      initAbsrState))))).bll_weights "navigation" = some 1.5 ∧
    lookupA (feedNav (feedNav (feedNav (feedNav (feedNav (feedNav
      initAbsrState)))))).bll_weights "navigation" = some 1.5 ∧
    (1.5 : ℝ) + defaultConfig.learning_rate ≠ 1.5 ∧
    (1.5 : ℝ) - defaultConfig.learning_rate ≠ 1.5 := by
  have e0 : initAbsrState.last_sensor_vec = none := rfl
  have h1 : (feedNav initAbsrState).bll_weights = [("navigation", 1.1)] ∧
      (feedNav initAbsrState).last_sensor_vec = none := by
    rw [feedNav_step initAbsrState e0]
    constructor
    · norm_num [initAbsrState, lookupA, insertA, max_def, min_def]
    · exact e0
  have h2 := feedNav_single _ 1.1 h1.2 h1.1
  have h2w : (feedNav (feedNav initAbsrState)).bll_weights = [("navigation", 1.2)] := by
    rw [h2.1]; norm_num [max_def, min_def]
  have h3 := feedNav_single _ 1.2 h2.2.1 h2w
  have h3w : (feedNav (feedNav (feedNav initAbsrState))).bll_weights =
      [("navigation", 1.3)] := by
    rw [h3.1]; norm_num [max_def, min_def]
  have h4 := feedNav_single _ 1.3 h3.2.1 h3w
  have h4w : (feedNav (feedNav (feedNav (feedNav initAbsrState)))).bll_weights =
      [("navigation", 1.4)] := by
    rw [h4.1]; norm_num [max_def, min_def]
  have h5 := feedNav_single _ 1.4 h4.2.1 h4w
  have h5w : (feedNav (feedNav (feedNav (feedNav (feedNav
      initAbsrState))))).bll_weights = [("navigation", 1.5)] := by
    rw [h5.1]; norm_num [max_def, min_def]
  have h6 := feedNav_single _ 1.5 h5.2.1 h5w
  have h6w : (feedNav (feedNav (feedNav (feedNav (feedNav (feedNav
      initAbsrState)))))).bll_weights = [("navigation", 1.5)] := by
    rw [h6.1]; norm_num [max_def, min_def]
  refine ⟨?_, ?_, ?_, ?_⟩
  · rw [h5w]; simp [lookupA]
  · rw [h6w]; simp [lookupA]
  · norm_num [defaultConfig]
  · norm_num [defaultConfig]

-- ---------------------------------------------------------------------------
-- Unfolding lemmas for the arbiter
-- ---------------------------------------------------------------------------

/-- Shorthand for the state after the `decision_count` increment at the top of
`decide()`. -/
noncomputable def bumped (s : AbsrState) : AbsrState :=
  { s with decision_count := s.decision_count + 1 }

theorem absrDecide_maneuver (cfg : SwarmConfig) (npz : NPZStore) (s : AbsrState)
    (t df dl dr sl sr : ℝ) (m : Maneuver) (hm : s.current_maneuver = some m) :
    absrDecide cfg npz s t df dl dr sl sr = executeManeuver m (bumped s) t dl dr := by
  simp only [absrDecide, hm, bumped]

theorem absrDecide_emergency (cfg : SwarmConfig) (npz : NPZStore) (s : AbsrState)
    (t df dl dr sl sr : ℝ) (hm : s.current_maneuver = none)
    (he : checkEmergencyCondition df dl dr) :
    absrDecide cfg npz s t df dl dr sl sr = startEmergencyManeuver (bumped s) dl dr := by
  simp only [absrDecide, hm, bumped]
  rw [if_pos he]

theorem absrDecide_avoidance (cfg : SwarmConfig) (npz : NPZStore) (s : AbsrState)
    (t df dl dr sl sr : ℝ) (hm : s.current_maneuver = none)
    (he : ¬ checkEmergencyCondition df dl dr) (ha : checkAvoidanceCondition df dl dr) :
    absrDecide cfg npz s t df dl dr sl sr = startAvoidanceManeuver (bumped s) t dl dr := by
  simp only [absrDecide, hm, bumped]
  rw [if_neg he, if_pos ha]

theorem absrDecide_standard (cfg : SwarmConfig) (npz : NPZStore) (s : AbsrState)
    (t df dl dr sl sr : ℝ) (hm : s.current_maneuver = none)
    (he : ¬ checkEmergencyCondition df dl dr) (ha : ¬ checkAvoidanceCondition df dl dr) :
    absrDecide cfg npz s t df dl dr sl sr =
      standardDecision cfg npz (bumped s) df dl dr sl sr := by
  simp only [absrDecide, hm, bumped]
  rw [if_neg he, if_neg ha]

-- ---------------------------------------------------------------------------
-- C10: frame effect of the non-standard decision paths
-- ---------------------------------------------------------------------------

theorem updateDirectionMemory_frame (s : AbsrState) (dir : Option Dir) :
    (updateDirectionMemory s dir).last_decision = s.last_decision ∧
    (updateDirectionMemory s dir).last_sensor_vec = s.last_sensor_vec ∧
    (updateDirectionMemory s dir).bll_weights = s.bll_weights ∧
    (updateDirectionMemory s dir).ol_vectors = s.ol_vectors := by
  cases dir with
  | none => exact ⟨rfl, rfl, rfl, rfl⟩
  | some d =>
    simp only [updateDirectionMemory]
    split <;> exact ⟨rfl, rfl, rfl, rfl⟩

theorem executeManeuver_frame (m : Maneuver) (s : AbsrState) (t dl dr : ℝ) :
    (executeManeuver m s t dl dr).2.last_decision = s.last_decision ∧
    (executeManeuver m s t dl dr).2.last_sensor_vec = s.last_sensor_vec ∧
    (executeManeuver m s t dl dr).2.bll_weights = s.bll_weights ∧
    (executeManeuver m s t dl dr).2.ol_vectors = s.ol_vectors := by
  cases m with
  | emergency phase c tgt turn_dir =>
    cases phase
    · exact ⟨rfl, rfl, rfl, rfl⟩
    · simp only [executeManeuver]
      (repeat' split) <;> exact ⟨rfl, rfl, rfl, rfl⟩
  | avoidance a sv b =>
    simp only [executeManeuver]
    (repeat' split) <;> exact ⟨rfl, rfl, rfl, rfl⟩

theorem startEmergencyManeuver_frame (s : AbsrState) (dl dr : ℝ) :
    (startEmergencyManeuver s dl dr).2.last_decision = s.last_decision ∧
    (startEmergencyManeuver s dl dr).2.last_sensor_vec = s.last_sensor_vec ∧
    (startEmergencyManeuver s dl dr).2.bll_weights = s.bll_weights ∧
    (startEmergencyManeuver s dl dr).2.ol_vectors = s.ol_vectors :=
  ⟨rfl, rfl, rfl, rfl⟩

theorem startAvoidanceManeuver_frame (s : AbsrState) (t dl dr : ℝ) :
    (startAvoidanceManeuver s t dl dr).2.last_decision = s.last_decision ∧
    (startAvoidanceManeuver s t dl dr).2.last_sensor_vec = s.last_sensor_vec ∧
    (startAvoidanceManeuver s t dl dr).2.bll_weights = s.bll_weights ∧
    (startAvoidanceManeuver s t dl dr).2.ol_vectors = s.ol_vectors := by
  simp only [startAvoidanceManeuver]
  (repeat' split) <;>
    first
      | exact ⟨rfl, rfl, rfl, rfl⟩
      | exact updateDirectionMemory_frame s _

/-- C10: whenever `decide()` returns through the maneuver-continuation,
emergency-trigger, avoidance-trigger or anti-oscillation path, the fields
`last_decision` and `last_sensor_vec` (and the BLL/OL learning maps, which are
all that `feedback` reads besides those two) are left unchanged, so a
subsequent `feedback()` call acts on the most recent standard-path decision. -/
theorem C10_frame_effect (cfg : SwarmConfig) (npz : NPZStore) (s : AbsrState)
    (t df dl dr sl sr : ℝ)
    (h : s.current_maneuver ≠ none ∨ checkEmergencyCondition df dl dr ∨
         checkAvoidanceCondition df dl dr) :
    (absrDecide cfg npz s t df dl dr sl sr).2.last_decision = s.last_decision ∧
    (absrDecide cfg npz s t df dl dr sl sr).2.last_sensor_vec = s.last_sensor_vec ∧
    (absrDecide cfg npz s t df dl dr sl sr).2.bll_weights = s.bll_weights ∧
    (absrDecide cfg npz s t df dl dr sl sr).2.ol_vectors = s.ol_vectors := by
  cases hm : s.current_maneuver with
  | some m =>
    rw [absrDecide_maneuver cfg npz s t df dl dr sl sr m hm]
    exact executeManeuver_frame m (bumped s) t dl dr
  | none =>
    by_cases he : checkEmergencyCondition df dl dr
    · rw [absrDecide_emergency cfg npz s t df dl dr sl sr hm he]
      exact startEmergencyManeuver_frame (bumped s) dl dr
    · have ha : checkAvoidanceCondition df dl dr := by
        rcases h with h | h | h
        · exact absurd hm h
        · exact absurd h he
        · exact h
      rw [absrDecide_avoidance cfg npz s t df dl dr sl sr hm he ha]
      exact startAvoidanceManeuver_frame (bumped s) t dl dr

/-- Witness for `C10_frame_effect`: a trapped reading `(40, 40, 40)` from the
fresh engine triggers the emergency path and leaves `last_decision` and
`last_sensor_vec` untouched. -/
theorem C10_frame_effect_witness :
    (initAbsrState.current_maneuver ≠ none ∨ checkEmergencyCondition 40 40 40 ∨
       checkAvoidanceCondition 40 40 40) ∧
    (absrDecide defaultConfig unloadedStore initAbsrState 0 40 40 40 100 100).2.last_decision
        = initAbsrState.last_decision ∧
    (absrDecide defaultConfig unloadedStore initAbsrState 0 40 40 40 100 100).2.last_sensor_vec
        = initAbsrState.last_sensor_vec := by
  have htrig : checkEmergencyCondition (40 : ℝ) 40 40 := by
    unfold checkEmergencyCondition; norm_num
  have h := C10_frame_effect defaultConfig unloadedStore initAbsrState 0 40 40 40 100 100
    (Or.inr (Or.inl htrig))
  exact ⟨Or.inr (Or.inl htrig), h.1, h.2.1⟩

-- ---------------------------------------------------------------------------
-- C3: the emergency Reverse phase
-- ---------------------------------------------------------------------------

theorem executeManeuver_reverse (s : AbsrState) (t dl dr : ℝ) (c tgt : ℕ) (dir : Action) :
    (executeManeuver (Maneuver.emergency EPhase.REVERSE c tgt dir) s t dl dr).1.action
        = Action.REVERSE ∧
    (executeManeuver (Maneuver.emergency EPhase.REVERSE c tgt dir) s t dl dr).1.source
        = Source.MANEUVER ∧
    (executeManeuver (Maneuver.emergency EPhase.REVERSE c tgt dir) s t dl dr).2.current_maneuver
        = some (Maneuver.emergency (if c + 1 ≥ tgt then EPhase.ALIGN_TURN else EPhase.REVERSE)
            (c + 1) tgt dir) :=
  ⟨rfl, rfl, rfl⟩

theorem absrRun_reverse_phase (cfg : SwarmConfig) (npz : NPZStore) :
    ∀ (l : List (ℝ × ℝ × ℝ × ℝ × ℝ × ℝ)) (s : AbsrState) (c tgt : ℕ) (dir : Action),
      s.current_maneuver = some (Maneuver.emergency EPhase.REVERSE c tgt dir) →
      ∀ d ∈ (absrRun cfg npz s l).take (tgt - c),
        d.action = Action.REVERSE ∧ d.source = Source.MANEUVER := by
  intro l
  induction l with
  | nil =>
    intro s c tgt dir hm d hd
    simp [absrRun] at hd
  | cons i rest ih =>
    intro s c tgt dir hm d hd
    by_cases hct : tgt - c = 0
    · rw [hct] at hd; simp at hd
    · obtain ⟨k, hk⟩ : ∃ k, tgt - c = k + 1 := ⟨tgt - c - 1, by omega⟩
      simp only [absrRun] at hd
      rw [absrDecide_maneuver cfg npz s i.1 i.2.1 i.2.2.1 i.2.2.2.1 i.2.2.2.2.1
        i.2.2.2.2.2 _ hm] at hd
      rw [hk, List.take_succ_cons] at hd
      rcases List.mem_cons.mp hd with rfl | hd'
      · exact ⟨rfl, rfl⟩
      · by_cases h2 : c + 1 ≥ tgt
        · have hk0 : k = 0 := by omega
          rw [hk0] at hd'
          simp at hd'
        · have hm' : (executeManeuver (Maneuver.emergency EPhase.REVERSE c tgt dir)
              (bumped s) i.1 i.2.2.1 i.2.2.2.1).2.current_maneuver
                = some (Maneuver.emergency EPhase.REVERSE (c + 1) tgt dir) := by
            rw [(executeManeuver_reverse (bumped s) i.1 i.2.2.1 i.2.2.2.1 c tgt dir).2.2]
            rw [if_neg h2]
          have hk' : tgt - (c + 1) = k := by omega
          exact ih _ (c + 1) tgt dir hm' d (by rw [hk']; exact hd')

/-- C3 counterexample: at the trapped reading `(40, 40, 40)` (front below the
critical 60 mm and both sides below critical) the fresh engine starts the
emergency maneuver, but the emitted decision's action is `REVERSE`, not
`ESCAPE` as the claim states. -/
theorem C3_counterexample :
    (40 : ℝ) < 60 ∧
    (absrDecide defaultConfig unloadedStore initAbsrState 0 40 40 40 100 100).1.action
        = Action.REVERSE ∧
    (absrDecide defaultConfig unloadedStore initAbsrState 0 40 40 40 100 100).1.source
        = Source.MANEUVER ∧
    Action.REVERSE ≠ Action.ESCAPE := by
  have htrig : checkEmergencyCondition (40 : ℝ) 40 40 := Or.inl (by norm_num)
  rw [absrDecide_emergency defaultConfig unloadedStore initAbsrState 0 40 40 40 100 100
    rfl htrig]
  exact ⟨by norm_num, rfl, rfl, by decide⟩

/-- C3 (amended): when the emergency trigger holds (in particular when the
front distance is below critical and both sides are below critical), the
decision of the triggering cycle and of the following cycles of the Reverse
phase — the first 21 decisions, hence at least `target_steps = 20` consecutive
cycles — all have action `REVERSE` (not `ESCAPE`) and source `MANEUVER`,
whatever sensor inputs arrive meanwhile. -/
theorem C3_amended_reverse_phase (cfg : SwarmConfig) (npz : NPZStore) (s : AbsrState)
    (i0 : ℝ × ℝ × ℝ × ℝ × ℝ × ℝ) (rest : List (ℝ × ℝ × ℝ × ℝ × ℝ × ℝ))
    (hm : s.current_maneuver = none)
    (hf : i0.2.1 < 60) (hl : i0.2.2.1 < 60) (hr : i0.2.2.2.1 < 60) :
    ∀ d ∈ (absrRun cfg npz s (i0 :: rest)).take 21,
      d.action = Action.REVERSE ∧ d.source = Source.MANEUVER := by
  intro d hd
  simp only [absrRun] at hd
  have htrig : checkEmergencyCondition i0.2.1 i0.2.2.1 i0.2.2.2.1 := Or.inl hf
  rw [absrDecide_emergency cfg npz s i0.1 i0.2.1 i0.2.2.1 i0.2.2.2.1 i0.2.2.2.2.1
    i0.2.2.2.2.2 hm htrig] at hd
  rw [show (21 : ℕ) = 20 + 1 from rfl, List.take_succ_cons] at hd
  rcases List.mem_cons.mp hd with rfl | hd'
  · exact ⟨rfl, rfl⟩
  · have hm' : (startEmergencyManeuver (bumped s) i0.2.2.1 i0.2.2.2.1).2.current_maneuver
        = some (Maneuver.emergency EPhase.REVERSE 0 20
            (if i0.2.2.1 < i0.2.2.2.1 then Action.TURN_RIGHT else Action.TURN_LEFT)) := rfl
    exact absrRun_reverse_phase cfg npz rest _ 0 20 _ hm' d hd'

/-- Witness for `C3_amended_reverse_phase` at the concrete trapped reading
`(40, 40, 40)` from the fresh engine. -/
theorem C3_amended_reverse_phase_witness :
    initAbsrState.current_maneuver = none ∧ ((40 : ℝ) < 60) ∧
    ∀ d ∈ (absrRun defaultConfig unloadedStore initAbsrState
        [(0, 40, 40, 40, 100, 100)]).take 21,
      d.action = Action.REVERSE ∧ d.source = Source.MANEUVER :=
  ⟨rfl, by norm_num,
    C3_amended_reverse_phase defaultConfig unloadedStore initAbsrState
      (0, 40, 40, 40, 100, 100) [] rfl (by norm_num) (by norm_num) (by norm_num)⟩

-- ---------------------------------------------------------------------------
-- C1: speed bounds of every decision
-- ---------------------------------------------------------------------------

/-- Bounds on the speed components of an `(action, speed_left, speed_right)`
triple. -/
def triBounded (z : Action × ℝ × ℝ) : Prop :=
  -150 ≤ z.2.1 ∧ z.2.1 ≤ 150 ∧ -150 ≤ z.2.2 ∧ z.2.2 ≤ 150

theorem triBounded_ite (P : Prop) [Decidable P] {x y : Action × ℝ × ℝ}
    (hx : triBounded x) (hy : triBounded y) : triBounded (if P then x else y) := by
  split
  · exact hx
  · exact hy

theorem conceptToAction_speed_bounds (c : String) : triBounded (conceptToAction c) := by
  unfold conceptToAction conceptToActionUpper
  repeat' apply triBounded_ite
  all_goals norm_num [triBounded]

theorem chaosBlendSpeeds_bounds (cfg : SwarmConfig) (base : ℝ × ℝ) (cv : ℝ × ℝ × ℝ) :
    0 ≤ (chaosBlendSpeeds cfg base cv).1 ∧ (chaosBlendSpeeds cfg base cv).1 ≤ 150 ∧
    0 ≤ (chaosBlendSpeeds cfg base cv).2 ∧ (chaosBlendSpeeds cfg base cv).2 ≤ 150 :=
  ⟨le_max_left _ _, max_le (by norm_num) (min_le_left _ _),
   le_max_left _ _, max_le (by norm_num) (min_le_left _ _)⟩

/-- Bounds on the `speed_left`/`speed_right` fields of a decision. -/
def speedsBounded (d : Decision) : Prop :=
  -150 ≤ d.speed_left ∧ d.speed_left ≤ 150 ∧ -150 ≤ d.speed_right ∧ d.speed_right ≤ 150

theorem executeManeuver_speed_bounds (m : Maneuver) (s : AbsrState) (t dl dr : ℝ) :
    speedsBounded (executeManeuver m s t dl dr).1 := by
  unfold speedsBounded
  cases m with
  | emergency phase c tgt turn_dir =>
    cases phase <;> simp only [executeManeuver] <;>
      (repeat' split) <;> norm_num [maneuverDecision]
  | avoidance a sv b =>
    simp only [executeManeuver]
    (repeat' split) <;> norm_num [maneuverDecision]

theorem startEmergencyManeuver_speed_bounds (s : AbsrState) (dl dr : ℝ) :
    speedsBounded (startEmergencyManeuver s dl dr).1 := by
  unfold speedsBounded startEmergencyManeuver
  norm_num [maneuverDecision]

theorem startAvoidanceManeuver_speed_bounds (s : AbsrState) (t dl dr : ℝ) :
    speedsBounded (startAvoidanceManeuver s t dl dr).1 := by
  unfold speedsBounded
  simp only [startAvoidanceManeuver]
  (repeat' split) <;> norm_num [maneuverDecision]

/-- Bounds on a speed pair. -/
def pairBounded (p : ℝ × ℝ) : Prop :=
  -150 ≤ p.1 ∧ p.1 ≤ 150 ∧ -150 ≤ p.2 ∧ p.2 ≤ 150

theorem pairBounded_ite (P : Prop) [Decidable P] {x y : ℝ × ℝ}
    (hx : pairBounded x) (hy : pairBounded y) : pairBounded (if P then x else y) := by
  split
  · exact hx
  · exact hy

theorem pairBounded_chaos (cfg : SwarmConfig) (base : ℝ × ℝ) (cv : ℝ × ℝ × ℝ) :
    pairBounded (chaosBlendSpeeds cfg base cv) :=
  ⟨le_trans (by norm_num) (chaosBlendSpeeds_bounds cfg base cv).1,
   (chaosBlendSpeeds_bounds cfg base cv).2.1,
   le_trans (by norm_num) (chaosBlendSpeeds_bounds cfg base cv).2.2.1,
   (chaosBlendSpeeds_bounds cfg base cv).2.2.2⟩

theorem speedsBounded_mk (a : Action) (p : ℝ × ℝ) (conf : ℝ) (c : String)
    (src : Source) (cyc : ℕ) (cat : Option String) (hp : pairBounded p) :
    speedsBounded (Decision.mk a p.1 p.2 conf c src cyc cat) := hp

theorem standardDecision_speed_bounds (cfg : SwarmConfig) (npz : NPZStore)
    (s : AbsrState) (df dl dr sl sr : ℝ) :
    speedsBounded (standardDecision cfg npz s df dl dr sl sr).1 := by
  simp only [standardDecision]
  apply speedsBounded_mk
  apply pairBounded_ite
  · apply pairBounded_chaos
  · apply pairBounded_ite
    · exact conceptToAction_speed_bounds _
    · norm_num [pairBounded]

/-- C1: for every configuration, store, engine state and call to `decide()`
with valid (non-negative) distances, the returned decision's `speed_left` and
`speed_right` lie in `[-150, 150]`.  (In this embedding a `Decision` is a
total record, so every returned decision carries all of the
action/speeds/confidence/concept/source/cycle fields, and `decide` is a total
function — no exception path exists.) -/
theorem C1_decide_speed_bounds (cfg : SwarmConfig) (npz : NPZStore) (s : AbsrState)
    (t df dl dr sl sr : ℝ) (hf : 0 ≤ df) (hl : 0 ≤ dl) (hr : 0 ≤ dr) :
    speedsBounded (absrDecide cfg npz s t df dl dr sl sr).1 := by
  cases hm : s.current_maneuver with
  | some m =>
    rw [absrDecide_maneuver cfg npz s t df dl dr sl sr m hm]
    exact executeManeuver_speed_bounds m (bumped s) t dl dr
  | none =>
    by_cases he : checkEmergencyCondition df dl dr
    · rw [absrDecide_emergency cfg npz s t df dl dr sl sr hm he]
      exact startEmergencyManeuver_speed_bounds (bumped s) dl dr
    · by_cases ha : checkAvoidanceCondition df dl dr
      · rw [absrDecide_avoidance cfg npz s t df dl dr sl sr hm he ha]
        exact startAvoidanceManeuver_speed_bounds (bumped s) t dl dr
      · rw [absrDecide_standard cfg npz s t df dl dr sl sr hm he ha]
        exact standardDecision_speed_bounds cfg npz (bumped s) df dl dr sl sr

/-- Witness for `C1_decide_speed_bounds` at the concrete clear-path reading
`(200, 150, 150)` on the fresh engine. -/
theorem C1_decide_speed_bounds_witness :
    (0 : ℝ) ≤ 200 ∧
    speedsBounded (absrDecide defaultConfig unloadedStore initAbsrState
      0 200 150 150 100 100).1 :=
  ⟨by norm_num,
    C1_decide_speed_bounds defaultConfig unloadedStore initAbsrState 0 200 150 150 100 100
      (by norm_num) (by norm_num) (by norm_num)⟩

-- ---------------------------------------------------------------------------
-- Evaluation lemmas for the standard path
-- ---------------------------------------------------------------------------

theorem matchOL_nil (cfg : SwarmConfig) (v : Vec38) : matchOL cfg [] v = ("", 0) := by
  have h : ([] : List (String × Vec38)).isEmpty = true := rfl
  unfold matchOL
  rw [if_pos (Or.inr h)]

theorem findBestMatch_unloaded (npz : NPZStore) (h : npz.loaded = false)
    (v : Vec38) (tol : ℝ) : findBestMatch npz v tol = ("FORWARD", 0, "fallback") := by
  unfold findBestMatch
  rw [if_pos h]

theorem lorenzStep_ol_vectors (cfg : SwarmConfig) (s : AbsrState) :
    (lorenzStep cfg s).2.ol_vectors = s.ol_vectors := rfl

theorem lorenzStep_lorenz_state (cfg : SwarmConfig) (s : AbsrState) :
    (lorenzStep cfg s).2.lorenz_state = lorenzNext cfg s.lorenz_state := rfl

theorem standardDecision_lorenz (cfg : SwarmConfig) (npz : NPZStore) (s : AbsrState)
    (df dl dr sl sr : ℝ) :
    (standardDecision cfg npz s df dl dr sl sr).2.lorenz_state =
      (if cfg.chaos_enabled = true ∧ min df (min dl dr) > cfg.chaos_min_safe_distance
       then lorenzNext cfg s.lorenz_state else s.lorenz_state) := by
  simp only [standardDecision, lorenzStep]
  (repeat' split) <;> rfl

-- ---------------------------------------------------------------------------
-- C8: the Lorenz state advances only conditionally
-- ---------------------------------------------------------------------------

/-- C8 (amended): on the standard matching path the ChaosModulator's Lorenz
state advances by exactly one integration step when chaos is enabled and the
minimum distance exceeds `chaos_min_safe_distance`, and is left unchanged
otherwise — the step is skipped, not merely zeroed, in the danger zone. -/
theorem C8_lorenz_conditional (cfg : SwarmConfig) (npz : NPZStore) (s : AbsrState)
    (t df dl dr sl sr : ℝ) (hm : s.current_maneuver = none)
    (he : ¬ checkEmergencyCondition df dl dr) (ha : ¬ checkAvoidanceCondition df dl dr) :
    (absrDecide cfg npz s t df dl dr sl sr).2.lorenz_state =
      (if cfg.chaos_enabled = true ∧ min df (min dl dr) > cfg.chaos_min_safe_distance
       then lorenzNext cfg s.lorenz_state else s.lorenz_state) := by
  rw [absrDecide_standard cfg npz s t df dl dr sl sr hm he ha,
    standardDecision_lorenz]
  rfl

/-- Witness for `C8_lorenz_conditional` at the concrete reading `(100,100,100)`
on the fresh engine. -/
theorem C8_lorenz_conditional_witness :
    initAbsrState.current_maneuver = none ∧
    ¬ checkEmergencyCondition (100 : ℝ) 100 100 ∧
    (absrDecide defaultConfig unloadedStore initAbsrState 0 100 100 100 100 100).2.lorenz_state
      = (if defaultConfig.chaos_enabled = true ∧
            min (100 : ℝ) (min 100 100) > defaultConfig.chaos_min_safe_distance
         then lorenzNext defaultConfig initAbsrState.lorenz_state
         else initAbsrState.lorenz_state) := by
  have he : ¬ checkEmergencyCondition (100 : ℝ) 100 100 := by
    unfold checkEmergencyCondition; norm_num
  have ha : ¬ checkAvoidanceCondition (100 : ℝ) 100 100 := by
    unfold checkAvoidanceCondition; norm_num
  exact ⟨rfl, he,
    C8_lorenz_conditional defaultConfig unloadedStore initAbsrState 0 100 100 100 100 100
      rfl he ha⟩

/-- C8 counterexample: the reading `(100, 100, 100)` reaches the standard
matching path (no maneuver, no trigger — the decision's source is `NPZ`), yet
the Lorenz state does not advance, because the minimum distance 100 mm is below
`chaos_min_safe_distance = 120`; one integration step would have changed it. -/
theorem C8_counterexample :
    (absrDecide defaultConfig unloadedStore initAbsrState 0 100 100 100 100 100).2.lorenz_state
        = initAbsrState.lorenz_state ∧
    lorenzNext defaultConfig initAbsrState.lorenz_state ≠ initAbsrState.lorenz_state ∧
    (absrDecide defaultConfig unloadedStore initAbsrState 0 100 100 100 100 100).1.source
        = Source.NPZ := by
  have he : ¬ checkEmergencyCondition (100 : ℝ) 100 100 := by
    unfold checkEmergencyCondition; norm_num
  have ha : ¬ checkAvoidanceCondition (100 : ℝ) 100 100 := by
    unfold checkAvoidanceCondition; norm_num
  have hchaos : ¬ (defaultConfig.chaos_enabled = true ∧
      min (100 : ℝ) (min 100 100) > defaultConfig.chaos_min_safe_distance) := by
    intro h
    have := h.2
    norm_num [defaultConfig] at this
  refine ⟨?_, ?_, ?_⟩
  · rw [C8_lorenz_conditional defaultConfig unloadedStore initAbsrState 0 100 100 100 100 100
      rfl he ha, if_neg hchaos]
  · intro h
    have h1 := congrArg Prod.fst h
    simp only [lorenzNext, defaultConfig, initAbsrState] at h1
    norm_num at h1
  · rw [absrDecide_standard defaultConfig unloadedStore initAbsrState 0 100 100 100 100 100
      rfl he ha]
    simp only [standardDecision]
    rw [if_neg hchaos, findBestMatch_unloaded unloadedStore rfl]
    simp [initAbsrState, bumped, matchOL_nil]

-- ---------------------------------------------------------------------------
-- C2: the FIXED engine has no RuleFuse path
-- ---------------------------------------------------------------------------

theorem standardDecision_unloaded (cfg : SwarmConfig) (npz : NPZStore) (s : AbsrState)
    (df dl dr sl sr : ℝ) (hnl : npz.loaded = false) (hol : s.ol_vectors = []) :
    (standardDecision cfg npz s df dl dr sl sr).1.source = Source.NPZ ∧
    (standardDecision cfg npz s df dl dr sl sr).1.concept = "FORWARD_UNCERTAIN" ∧
    (standardDecision cfg npz s df dl dr sl sr).1.confidence = 0 := by
  simp only [standardDecision]
  rw [findBestMatch_unloaded npz hnl]
  by_cases hC : cfg.chaos_enabled = true ∧ min df (min dl dr) > cfg.chaos_min_safe_distance
  · rw [if_pos hC]
    norm_num [lorenzStep, hol, matchOL_nil]
  · rw [if_neg hC]
    norm_num [hol, matchOL_nil]

/-- C2 (amended): the FIXED engine's `decide()` never consults the rule ladder
and never emits a RuleFuse decision.  When the concept store failed to load and
no OL vectors have been learned, the standard path instead degrades to the
cautious `FORWARD_UNCERTAIN` decision with source `NPZ` and confidence 0 —
regardless of what label the rule ladder would have produced. -/
theorem C2_no_rule_fuse (cfg : SwarmConfig) (npz : NPZStore) (s : AbsrState)
    (t df dl dr sl sr : ℝ) (hnl : npz.loaded = false) (hol : s.ol_vectors = [])
    (hm : s.current_maneuver = none) (he : ¬ checkEmergencyCondition df dl dr)
    (ha : ¬ checkAvoidanceCondition df dl dr) :
    (absrDecide cfg npz s t df dl dr sl sr).1.source = Source.NPZ ∧
    (absrDecide cfg npz s t df dl dr sl sr).1.concept = "FORWARD_UNCERTAIN" ∧
    (absrDecide cfg npz s t df dl dr sl sr).1.confidence = 0 ∧
    (absrDecide cfg npz s t df dl dr sl sr).1.source ≠ Source.RULE_FUSE := by
  rw [absrDecide_standard cfg npz s t df dl dr sl sr hm he ha]
  have h := standardDecision_unloaded cfg npz (bumped s) df dl dr sl sr hnl hol
  refine ⟨h.1, h.2.1, h.2.2, ?_⟩
  rw [h.1]
  simp

/-- Witness for `C2_no_rule_fuse` at the concrete open reading `(300,300,300)`
on a fresh engine whose store failed to load. -/
theorem C2_no_rule_fuse_witness :
    unloadedStore.loaded = false ∧ initAbsrState.ol_vectors = [] ∧
    (absrDecide defaultConfig unloadedStore initAbsrState 0 300 300 300 100 100).1.source
        = Source.NPZ ∧
    (absrDecide defaultConfig unloadedStore initAbsrState 0 300 300 300 100 100).1.source
        ≠ Source.RULE_FUSE := by
  have he : ¬ checkEmergencyCondition (300 : ℝ) 300 300 := by
    unfold checkEmergencyCondition; norm_num
  have ha : ¬ checkAvoidanceCondition (300 : ℝ) 300 300 := by
    unfold checkAvoidanceCondition; norm_num
  have h := C2_no_rule_fuse defaultConfig unloadedStore initAbsrState 0 300 300 300 100 100
    rfl rfl rfl he ha
  exact ⟨rfl, rfl, h.1, h.2.2.2⟩

/-- C2 counterexample: at the reading `(300, 300, 300)` the rule ladder
produces the non-default label `CLEAR_PATH`, the store has failed to load so
the BLL-adjusted confidence is 0 < 0.7, yet the emitted decision's source is
`NPZ` (the `FORWARD_UNCERTAIN` fallback), not `RULE_FUSE` — the FIXED standard
path never uses the rule ladder. -/
theorem C2_counterexample :
    ruleBasedDecision defaultConfig 300 300 300
        = (Action.FORWARD, 120, 120, "CLEAR_PATH") ∧
    ("CLEAR_PATH" : String) ≠ "DEFAULT_CAUTIOUS" ∧
    (absrDecide defaultConfig unloadedStore initAbsrState 0 300 300 300 100 100).1.confidence
        = 0 ∧
    (0 : ℝ) < 0.7 ∧
    (absrDecide defaultConfig unloadedStore initAbsrState 0 300 300 300 100 100).1.source
        = Source.NPZ ∧
    Source.NPZ ≠ Source.RULE_FUSE := by
  have he : ¬ checkEmergencyCondition (300 : ℝ) 300 300 := by
    unfold checkEmergencyCondition; norm_num
  have ha : ¬ checkAvoidanceCondition (300 : ℝ) 300 300 := by
    unfold checkAvoidanceCondition; norm_num
  refine ⟨?_, by simp, ?_, by norm_num, ?_, by simp⟩
  · unfold ruleBasedDecision
    norm_num [defaultConfig, SwarmConfig.get_min_passage_width,
      SwarmConfig.is_tight_passage, SwarmConfig.get_safe_speed_for_passage]
  · rw [absrDecide_standard defaultConfig unloadedStore initAbsrState 0 300 300 300 100 100
      rfl he ha]
    exact (standardDecision_unloaded defaultConfig unloadedStore (bumped initAbsrState)
      300 300 300 100 100 rfl rfl).2.2
  · rw [absrDecide_standard defaultConfig unloadedStore initAbsrState 0 300 300 300 100 100
      rfl he ha]
    exact (standardDecision_unloaded defaultConfig unloadedStore (bumped initAbsrState)
      300 300 300 100 100 rfl rfl).1

-- ---------------------------------------------------------------------------
-- Basic facts about dotV / normV
-- ---------------------------------------------------------------------------

theorem dotV_self_nonneg (v : Vec38) : 0 ≤ dotV v v :=
  Finset.sum_nonneg fun _ _ => mul_self_nonneg _

theorem dotV_self_pos (v : Vec38) (i : Fin 38) (h : v i ≠ 0) : 0 < dotV v v := by
  have h1 : 0 < v i * v i := mul_self_pos.mpr h
  have h2 : v i * v i ≤ dotV v v :=
    Finset.single_le_sum (f := fun j => v j * v j) (fun j _ => mul_self_nonneg _)
      (Finset.mem_univ i)
  linarith

theorem normV_nonneg (v : Vec38) : 0 ≤ normV v := Real.sqrt_nonneg _

theorem normV_pos (v : Vec38) (h : 0 < dotV v v) : 0 < normV v := Real.sqrt_pos.mpr h

-- ---------------------------------------------------------------------------
-- C5: negative distances propagate into the feature vector
-- ---------------------------------------------------------------------------

/-- C5 (evaluation at the failing input): for `dist_front = -200` mm (left and
right at full range) the vectorizer computes slot 0 as `min(-200/400, 1) =
-1/2` — the negative value is neither clamped into `[0, 1]` nor treated as
"unknown, assume max range", and it propagates into the final L2-normalized
feature vector, whose slot 0 is negative. -/
theorem C5_negative_distance_propagates :
    rawSensorVec defaultConfig (-200) 400 400 100 100 0 = -(1 / 2) ∧
    createSensorVector defaultConfig (-200) 400 400 100 100 0 < 0 := by
  have h0 : rawSensorVec defaultConfig (-200) 400 400 100 100 0 = -(1 / 2) := by
    norm_num [rawSensorVec, defaultConfig, min_def]
  have h1 : rawSensorVec defaultConfig (-200) 400 400 100 100 1 = 1 := by
    norm_num [rawSensorVec, defaultConfig, min_def]
  refine ⟨h0, ?_⟩
  have hd : 0 < dotV (rawSensorVec defaultConfig (-200) 400 400 100 100)
      (rawSensorVec defaultConfig (-200) 400 400 100 100) :=
    dotV_self_pos _ 1 (by rw [h1]; norm_num)
  have hn := normV_pos _ hd
  unfold createSensorVector normalizeV
  rw [if_pos hn]
  exact div_neg_of_neg_of_pos (by rw [h0]; norm_num) hn

-- ---------------------------------------------------------------------------
-- C6: find_best_match
-- ---------------------------------------------------------------------------

theorem bestFold_go (v : Vec38) :
    ∀ (l : List StoredConcept) (w : String) (s : ℝ) (k : String),
      ∃ w' s' k', l.foldl (bestFold v) (some (w, s, k)) = some (w', s', k') ∧
        s ≤ s' ∧ (∀ c ∈ l, dotV c.vec v ≤ s') ∧
        ((w' = w ∧ s' = s ∧ k' = k) ∨
          ∃ c ∈ l, w' = c.word ∧ s' = dotV c.vec v ∧ k' = c.category) := by
  intro l
  induction l with
  | nil =>
    intro w s k
    exact ⟨w, s, k, rfl, le_refl s, by simp, Or.inl ⟨rfl, rfl, rfl⟩⟩
  | cons c t ih =>
    intro w s k
    by_cases h : dotV c.vec v > s
    · obtain ⟨w', s', k', hfold, hle, hall, horig⟩ := ih c.word (dotV c.vec v) c.category
      refine ⟨w', s', k', ?_, by linarith, ?_, ?_⟩
      · rw [List.foldl_cons]
        rw [show bestFold v (some (w, s, k)) c
            = some (c.word, dotV c.vec v, c.category) by simp [bestFold, h]]
        exact hfold
      · intro x hx
        rcases List.mem_cons.mp hx with rfl | hx
        · exact hle
        · exact hall x hx
      · rcases horig with ⟨hw, hs, hk⟩ | ⟨x, hx, hrest⟩
        · exact Or.inr ⟨c, List.mem_cons_self c t, hw, hs, hk⟩
        · exact Or.inr ⟨x, List.mem_cons_of_mem c hx, hrest⟩
    · obtain ⟨w', s', k', hfold, hle, hall, horig⟩ := ih w s k
      refine ⟨w', s', k', ?_, hle, ?_, ?_⟩
      · rw [List.foldl_cons]
        rw [show bestFold v (some (w, s, k)) c = some (w, s, k) by simp [bestFold, h]]
        exact hfold
      · intro x hx
        rcases List.mem_cons.mp hx with rfl | hx
        · push_neg at h
          linarith
        · exact hall x hx
      · rcases horig with horig | ⟨x, hx, hrest⟩
        · exact Or.inl horig
        · exact Or.inr ⟨x, List.mem_cons_of_mem c hx, hrest⟩

theorem bestOver_spec (v : Vec38) (l : List StoredConcept) (hne : l ≠ []) :
    ∃ c ∈ l, bestOver v l = some (c.word, dotV c.vec v, c.category) ∧
      ∀ c' ∈ l, dotV c'.vec v ≤ dotV c.vec v := by
  cases l with
  | nil => exact absurd rfl hne
  | cons c t =>
    obtain ⟨w', s', k', hfold, hle, hall, horig⟩ :=
      bestFold_go v t c.word (dotV c.vec v) c.category
    have hbo : bestOver v (c :: t) = some (w', s', k') := by
      unfold bestOver
      rw [List.foldl_cons]
      exact hfold
    rcases horig with ⟨hw, hs, hk⟩ | ⟨x, hx, hw, hs, hk⟩
    · refine ⟨c, List.mem_cons_self c t, ?_, ?_⟩
      · rw [hbo, hw, hs, hk]
      · intro y hy
        rcases List.mem_cons.mp hy with rfl | hy
        · exact le_refl _
        · rw [← hs]
          exact hall y hy
    · refine ⟨x, List.mem_cons_of_mem c hx, ?_, ?_⟩
      · rw [hbo, hw, hs, hk]
      · intro y hy
        rcases List.mem_cons.mp hy with rfl | hy
        · rw [← hs]
          exact hle
        · rw [← hs]
          exact hall y hy

/-- C6 counterexample: when the store failed to load, `find_best_match` returns
the triple `("FORWARD", 0.0, "fallback")` — the category is `"fallback"`, not
the `"low_confidence"` stated by the claim. -/
theorem C6_counterexample :
    findBestMatch unloadedStore (fun _ => 0) 0.25 = ("FORWARD", 0, "fallback") ∧
    ("fallback" : String) ≠ "low_confidence" :=
  ⟨findBestMatch_unloaded unloadedStore rfl _ _, by simp⟩

/-- C6 (amended): `find_best_match` is total on every loaded nonempty store:
if the store failed to load it returns `("FORWARD", 0, "fallback")`; otherwise
there is a stored concept of maximal dot-product similarity, and the result is
`("FORWARD", best_sim, "low_confidence")` when that best similarity is below
the tolerance, else that concept's `(word, similarity, category)`. -/
theorem C6_find_best_match (npz : NPZStore) (v : Vec38) (tol : ℝ)
    (hne : npz.concepts ≠ []) :
    (npz.loaded = false → findBestMatch npz v tol = ("FORWARD", 0, "fallback")) ∧
    (npz.loaded = true → ∃ c ∈ npz.concepts,
      (∀ c' ∈ npz.concepts, dotV c'.vec v ≤ dotV c.vec v) ∧
      ((dotV c.vec v < tol ∧
          findBestMatch npz v tol = ("FORWARD", dotV c.vec v, "low_confidence")) ∨
       (¬ dotV c.vec v < tol ∧
          findBestMatch npz v tol = (c.word, dotV c.vec v, c.category)))) := by
  constructor
  · intro h
    exact findBestMatch_unloaded npz h v tol
  · intro h
    obtain ⟨c, hc, hbo, hmax⟩ := bestOver_spec v npz.concepts hne
    refine ⟨c, hc, hmax, ?_⟩
    unfold findBestMatch
    rw [if_neg (by simp [h]), hbo]
    by_cases ht : dotV c.vec v < tol
    · exact Or.inl ⟨ht, by simp [ht]⟩
    · exact Or.inr ⟨ht, by simp [ht]⟩

/-- A one-concept store used as a concrete witness input. -/
noncomputable def singletonStore : NPZStore :=
  loadStore [⟨"CLEAR_PATH", (fun _ => 0), "navigation"⟩]

/-- Witness for `C6_find_best_match` on a concrete loaded one-concept store. -/
theorem C6_find_best_match_witness :
    singletonStore.concepts ≠ [] ∧
    ((singletonStore.loaded = false →
        findBestMatch singletonStore (fun _ => 0) 0.25 = ("FORWARD", 0, "fallback")) ∧
     (singletonStore.loaded = true → ∃ c ∈ singletonStore.concepts,
        (∀ c' ∈ singletonStore.concepts,
            dotV c'.vec (fun _ => 0) ≤ dotV c.vec (fun _ => 0)) ∧
        ((dotV c.vec (fun _ => 0) < 0.25 ∧
            findBestMatch singletonStore (fun _ => 0) 0.25
              = ("FORWARD", dotV c.vec (fun _ => 0), "low_confidence")) ∨
         (¬ dotV c.vec (fun _ => 0) < 0.25 ∧
            findBestMatch singletonStore (fun _ => 0) 0.25
              = (c.word, dotV c.vec (fun _ => 0), c.category))))) :=
  ⟨by simp [singletonStore, loadStore],
    C6_find_best_match singletonStore (fun _ => 0) 0.25
      (by simp [singletonStore, loadStore])⟩

-- ---------------------------------------------------------------------------
-- Cauchy-Schwarz and unit-norm lemmas
-- ---------------------------------------------------------------------------

theorem dotV_normalized_self (v : Vec38) (h : 0 < dotV v v) :
    dotV (fun i => v i / normV v) (fun i => v i / normV v) = 1 := by
  have hsq : normV v * normV v = dotV v v := Real.mul_self_sqrt (dotV_self_nonneg v)
  unfold dotV
  calc ∑ i, (v i / normV v) * (v i / normV v)
      = ∑ i, (v i * v i) / (normV v * normV v) := by
        refine Finset.sum_congr rfl fun i _ => ?_
        rw [div_mul_div_comm]
    _ = (∑ i, v i * v i) / (normV v * normV v) := by rw [Finset.sum_div]
    _ = 1 := by
        rw [hsq]
        exact div_self (ne_of_gt h)

theorem abs_dotV_le (v w : Vec38) : |dotV v w| ≤ normV v * normV w := by
  have h1 : dotV v w ≤ normV v * normV w := by
    have h := Real.sum_mul_le_sqrt_mul_sqrt Finset.univ v w
    simpa [dotV, normV, pow_two] using h
  have h2 : -(normV v * normV w) ≤ dotV v w := by
    have h := Real.sum_mul_le_sqrt_mul_sqrt Finset.univ v (fun i => -(w i))
    simp only [mul_neg, Finset.sum_neg_distrib, neg_sq] at h
    have h' : -(∑ i, v i * w i) ≤ normV v * normV w := by
      simpa [normV, dotV, pow_two] using h
    simpa [dotV] using neg_le.mp (by linarith)
  exact abs_le.mpr ⟨h2, h1⟩

theorem normV_div_self_le_one (v : Vec38) : normV (fun i => v i / normV v) ≤ 1 := by
  by_cases h : 0 < dotV v v
  · have : normV (fun i => v i / normV v)
        = Real.sqrt (dotV (fun i => v i / normV v) (fun i => v i / normV v)) := rfl
    rw [this, dotV_normalized_self v h, Real.sqrt_one]
  · have hz : dotV v v = 0 := le_antisymm (not_lt.mp h) (dotV_self_nonneg v)
    have hnz : normV v = 0 := by
      unfold normV
      rw [hz, Real.sqrt_zero]
    have : (fun i => v i / normV v) = fun _ : Fin 38 => (0 : ℝ) := by
      funext i
      rw [hnz, div_zero]
    rw [this]
    have : normV (fun _ : Fin 38 => (0 : ℝ)) = 0 := by
      unfold normV dotV
      simp
    rw [this]
    norm_num

theorem normV_normalizeV_le_one (v : Vec38) : normV (normalizeV v) ≤ 1 := by
  unfold normalizeV
  split
  · exact normV_div_self_le_one v
  case isFalse h =>
    have h0 : normV v = 0 := le_antisymm (not_lt.mp h) (normV_nonneg v)
    rw [h0]
    norm_num

theorem normV_loadNormalizeV_le_one (v : Vec38) : normV (loadNormalizeV v) ≤ 1 := by
  unfold loadNormalizeV
  by_cases h : normV v = 0
  · simp only [h, if_pos, div_one]
    norm_num
  · rw [show (fun i => v i / (if normV v = 0 then 1 else normV v))
        = fun i => v i / normV v by funext i; rw [if_neg h]]
    exact normV_div_self_le_one v

-- ---------------------------------------------------------------------------
-- Similarity and weight bounds feeding the confidence
-- ---------------------------------------------------------------------------

theorem olFold_acc_bounds (sn : Vec38) (hsn : normV sn ≤ 1) :
    ∀ (l : List (String × Vec38)) (acc : String × ℝ), 0 ≤ acc.2 → acc.2 ≤ 1 →
      0 ≤ (l.foldl (olFold sn) acc).2 ∧ (l.foldl (olFold sn) acc).2 ≤ 1 := by
  intro l
  induction l with
  | nil =>
    intro acc h0 h1
    exact ⟨h0, h1⟩
  | cons p t ih =>
    intro acc h0 h1
    rw [List.foldl_cons]
    have hstep : 0 ≤ (olFold sn acc p).2 ∧ (olFold sn acc p).2 ≤ 1 := by
      unfold olFold
      split
      case isTrue hp =>
        split
        case isTrue hgt =>
          have habs := abs_dotV_le sn (fun i => p.2 i / normV p.2)
          have hb : normV (fun i => p.2 i / normV p.2) ≤ 1 := normV_div_self_le_one p.2
          have hsim : |dotV sn (fun i => p.2 i / normV p.2)| ≤ 1 := by
            calc |dotV sn (fun i => p.2 i / normV p.2)|
                ≤ normV sn * normV (fun i => p.2 i / normV p.2) := habs
              _ ≤ 1 * 1 := by
                  apply mul_le_mul hsn hb (normV_nonneg _) (by norm_num)
              _ = 1 := by norm_num
          constructor
          · exact le_of_lt (lt_of_le_of_lt h0 hgt)
          · exact le_trans (le_abs_self _) hsim
        case isFalse => exact ⟨h0, h1⟩
      case isFalse => exact ⟨h0, h1⟩
    exact ih (olFold sn acc p) hstep.1 hstep.2

theorem matchOL_sim_bounds (cfg : SwarmConfig) (ol : List (String × Vec38))
    (v : Vec38) : 0 ≤ (matchOL cfg ol v).2 ∧ (matchOL cfg ol v).2 ≤ 1 := by
  unfold matchOL
  split
  · norm_num
  · split
    case isTrue hv =>
      refine olFold_acc_bounds _ ?_ ol ("", 0) (by norm_num) (by norm_num)
      exact normV_div_self_le_one v
    · norm_num

theorem findBestMatch_sim_bound (npz : NPZStore) (v : Vec38) (tol : ℝ)
    (hv : normV v ≤ 1) (hstore : ∀ c ∈ npz.concepts, normV c.vec ≤ 1) :
    |(findBestMatch npz v tol).2.1| ≤ 1 := by
  unfold findBestMatch
  split
  · norm_num
  case isFalse hld =>
    by_cases hne : npz.concepts = []
    · rw [hne]
      norm_num [bestOver]
    · obtain ⟨c, hc, hbo, hmax⟩ := bestOver_spec v npz.concepts hne
      rw [hbo]
      have hsim : |dotV c.vec v| ≤ 1 := by
        calc |dotV c.vec v| ≤ normV c.vec * normV v := abs_dotV_le c.vec v
          _ ≤ 1 * 1 := mul_le_mul (hstore c hc) hv (normV_nonneg v) (by norm_num)
          _ = 1 := by norm_num
      by_cases ht : dotV c.vec v < tol
      · simpa [ht] using hsim
      · simpa [ht] using hsim

theorem boost_bounds (wts : List (String × ℝ)) (k : String)
    (hw : ∀ p ∈ wts, (1 / 2 : ℝ) ≤ p.2 ∧ p.2 ≤ 3 / 2) :
    0 ≤ (lookupA wts k).getD 1 ∧ (lookupA wts k).getD 1 ≤ 3 / 2 := by
  cases hl : lookupA wts k with
  | none => norm_num
  | some w =>
    have hmem := hw _ (lookupA_mem hl)
    constructor
    · simp only [Option.getD_some]
      linarith [hmem.1]
    · simpa using hmem.2

-- ---------------------------------------------------------------------------
-- C4: the confidence is NOT confined to [0,1]
-- ---------------------------------------------------------------------------

theorem executeManeuver_confidence (m : Maneuver) (s : AbsrState) (t dl dr : ℝ) :
    (executeManeuver m s t dl dr).1.confidence = 1 := by
  cases m with
  | emergency phase c tgt turn_dir =>
    cases phase <;> simp only [executeManeuver] <;> (repeat' split) <;> rfl
  | avoidance a sv b =>
    simp only [executeManeuver]
    (repeat' split) <;> rfl

theorem startEmergencyManeuver_confidence (s : AbsrState) (dl dr : ℝ) :
    (startEmergencyManeuver s dl dr).1.confidence = 1 := rfl

theorem startAvoidanceManeuver_confidence (s : AbsrState) (t dl dr : ℝ) :
    (startAvoidanceManeuver s t dl dr).1.confidence = 1 := by
  simp only [startAvoidanceManeuver]
  (repeat' split) <;> rfl

theorem conf_bound_core (sim boost : ℝ) (hsim : |sim| ≤ 1) (h0 : 0 ≤ boost)
    (h32 : boost ≤ 3 / 2) : |sim * boost| ≤ 3 / 2 := by
  rw [abs_mul]
  calc |sim| * |boost| ≤ 1 * (3 / 2) := by
        apply mul_le_mul hsim _ (abs_nonneg _) (by norm_num)
        rwa [abs_of_nonneg h0]
    _ = 3 / 2 := by norm_num

theorem standardDecision_confidence_bound (cfg : SwarmConfig) (npz : NPZStore)
    (s : AbsrState) (df dl dr sl sr : ℝ)
    (hwts : ∀ p ∈ s.bll_weights, (1 / 2 : ℝ) ≤ p.2 ∧ p.2 ≤ 3 / 2)
    (hstore : ∀ c ∈ npz.concepts, normV c.vec ≤ 1) :
    |(standardDecision cfg npz s df dl dr sl sr).1.confidence| ≤ 3 / 2 := by
  have hu : normV (createSensorVector cfg df dl dr sl sr) ≤ 1 :=
    normV_normalizeV_le_one _
  simp only [standardDecision]
  by_cases hC : cfg.chaos_enabled = true ∧ min df (min dl dr) > cfg.chaos_min_safe_distance
  · rw [if_pos hC]
    simp only [lorenzStep]
    apply conf_bound_core
    · split
      · have hb := matchOL_sim_bounds cfg s.ol_vectors
          (createSensorVector cfg df dl dr sl sr)
        exact abs_le.mpr ⟨by linarith [hb.1], hb.2⟩
      · exact findBestMatch_sim_bound npz _ 0.25 hu hstore
    · exact (boost_bounds s.bll_weights _ hwts).1
    · exact (boost_bounds s.bll_weights _ hwts).2
  · rw [if_neg hC]
    apply conf_bound_core
    · split
      · have hb := matchOL_sim_bounds cfg s.ol_vectors
          (createSensorVector cfg df dl dr sl sr)
        exact abs_le.mpr ⟨by linarith [hb.1], hb.2⟩
      · exact findBestMatch_sim_bound npz _ 0.25 hu hstore
    · exact (boost_bounds s.bll_weights _ hwts).1
    · exact (boost_bounds s.bll_weights _ hwts).2

/-- C4 (amended): provided every stored BLL weight lies in the documented
range `[0.5, 1.5]` (the invariant the feedback clamp maintains) and the loaded
store holds unit-normalized vectors, the confidence of every decision is
bounded by 3/2 in absolute value — not by 1: match similarity times a BLL
weight of up to 1.5 can reach 1.5. -/
theorem C4_confidence_bound (cfg : SwarmConfig) (npz : NPZStore) (s : AbsrState)
    (t df dl dr sl sr : ℝ)
    (hwts : ∀ p ∈ s.bll_weights, (1 / 2 : ℝ) ≤ p.2 ∧ p.2 ≤ 3 / 2)
    (hstore : ∀ c ∈ npz.concepts, normV c.vec ≤ 1) :
    |(absrDecide cfg npz s t df dl dr sl sr).1.confidence| ≤ 3 / 2 := by
  cases hm : s.current_maneuver with
  | some m =>
    rw [absrDecide_maneuver cfg npz s t df dl dr sl sr m hm,
      executeManeuver_confidence]
    norm_num
  | none =>
    by_cases he : checkEmergencyCondition df dl dr
    · rw [absrDecide_emergency cfg npz s t df dl dr sl sr hm he,
        startEmergencyManeuver_confidence]
      norm_num
    · by_cases ha : checkAvoidanceCondition df dl dr
      · rw [absrDecide_avoidance cfg npz s t df dl dr sl sr hm he ha,
          startAvoidanceManeuver_confidence]
        norm_num
      · rw [absrDecide_standard cfg npz s t df dl dr sl sr hm he ha]
        exact standardDecision_confidence_bound cfg npz (bumped s) df dl dr sl sr
          hwts hstore

/-- Witness for `C4_confidence_bound` on the fresh engine with an unloaded
store at the clear-path reading `(200, 150, 150)`. -/
theorem C4_confidence_bound_witness :
    (∀ p ∈ initAbsrState.bll_weights, (1 / 2 : ℝ) ≤ p.2 ∧ p.2 ≤ 3 / 2) ∧
    |(absrDecide defaultConfig unloadedStore initAbsrState
        0 200 150 150 100 100).1.confidence| ≤ 3 / 2 := by
  have h1 : ∀ p ∈ initAbsrState.bll_weights, (1 / 2 : ℝ) ≤ p.2 ∧ p.2 ≤ 3 / 2 := by
    simp [initAbsrState]
  have h2 : ∀ c ∈ unloadedStore.concepts, normV c.vec ≤ 1 := by
    simp [unloadedStore]
  exact ⟨h1, C4_confidence_bound defaultConfig unloadedStore initAbsrState
    0 200 150 150 100 100 h1 h2⟩

-- ---------------------------------------------------------------------------
-- C4 counterexample: a concrete run with confidence 1.5
-- ---------------------------------------------------------------------------

/-- The raw feature vector of the all-clear reading `(400, 400, 400)`. -/
noncomputable def vC4 : Vec38 := rawSensorVec defaultConfig 400 400 400 100 100

/-- A store trained to contain exactly that situation under a `NORMAL`-class
concept of category `navigation`. -/
noncomputable def npzC4 : NPZStore :=
  loadStore [⟨"NORMAL_NAV", vC4, "navigation"⟩]

/-- The engine state after five successful `feedback(True, 'navigation')`
calls on a fresh engine: the `navigation` BLL weight sits at the clamp
boundary 1.5. -/
noncomputable def sC4 : AbsrState :=
  feedNav (feedNav (feedNav (feedNav (feedNav initAbsrState))))

theorem sC4_facts :
    sC4.bll_weights = [("navigation", 1.5)] ∧ sC4.last_sensor_vec = none ∧
    sC4.ol_vectors = [] ∧ sC4.current_maneuver = none := by
  have h1 : (feedNav initAbsrState).bll_weights = [("navigation", 1.1)] ∧
      (feedNav initAbsrState).last_sensor_vec = none ∧
      (feedNav initAbsrState).ol_vectors = [] ∧
      (feedNav initAbsrState).current_maneuver = none := by
    rw [feedNav_step initAbsrState rfl]
    refine ⟨?_, rfl, rfl, rfl⟩
    norm_num [initAbsrState, lookupA, insertA, max_def, min_def]
  have h2 := feedNav_single _ 1.1 h1.2.1 h1.1
  have h2w : (feedNav (feedNav initAbsrState)).bll_weights = [("navigation", 1.2)] := by
    rw [h2.1]
    norm_num [max_def, min_def]
  have h3 := feedNav_single _ 1.2 h2.2.1 h2w
  have h3w : (feedNav (feedNav (feedNav initAbsrState))).bll_weights
      = [("navigation", 1.3)] := by
    rw [h3.1]
    norm_num [max_def, min_def]
  have h4 := feedNav_single _ 1.3 h3.2.1 h3w
  have h4w : (feedNav (feedNav (feedNav (feedNav initAbsrState)))).bll_weights
      = [("navigation", 1.4)] := by
    rw [h4.1]
    norm_num [max_def, min_def]
  have h5 := feedNav_single _ 1.4 h4.2.1 h4w
  have h5w : sC4.bll_weights = [("navigation", 1.5)] := by
    rw [show sC4.bll_weights
        = (feedNav (feedNav (feedNav (feedNav (feedNav initAbsrState))))).bll_weights
        from rfl, h5.1]
    norm_num [max_def, min_def]
  refine ⟨h5w, h5.2.1, ?_, ?_⟩
  · show (feedNav _).ol_vectors = []
    rw [h5.2.2.1, h4.2.2.1, h3.2.2.1, h2.2.2.1, h1.2.2.1]
  · show (feedNav _).current_maneuver = none
    rw [h5.2.2.2, h4.2.2.2, h3.2.2.2, h2.2.2.2, h1.2.2.2]

theorem vC4_slot0 : vC4 0 = 1 := by
  norm_num [vC4, rawSensorVec, defaultConfig, min_def]

theorem vC4_dot_pos : 0 < dotV vC4 vC4 :=
  dotV_self_pos _ 0 (by rw [vC4_slot0]; norm_num)

theorem uC4_eq : createSensorVector defaultConfig 400 400 400 100 100
    = fun i => vC4 i / normV vC4 := by
  unfold createSensorVector
  rw [show rawSensorVec defaultConfig 400 400 400 100 100 = vC4 from rfl]
  unfold normalizeV
  rw [if_pos (normV_pos _ vC4_dot_pos)]

theorem simC4 : dotV (loadNormalizeV vC4)
    (createSensorVector defaultConfig 400 400 400 100 100) = 1 := by
  rw [uC4_eq, show loadNormalizeV vC4 = fun i => vC4 i / normV vC4 by
    unfold loadNormalizeV
    funext i
    rw [if_neg (ne_of_gt (normV_pos _ vC4_dot_pos))]]
  exact dotV_normalized_self vC4 vC4_dot_pos

theorem fbmC4 : findBestMatch npzC4
    (createSensorVector defaultConfig 400 400 400 100 100) 0.25
    = ("NORMAL_NAV", 1, "navigation") := by
  have hconc : npzC4.concepts = [⟨"NORMAL_NAV", loadNormalizeV vC4, "navigation"⟩] := by
    simp [npzC4, loadStore]
  unfold findBestMatch
  rw [if_neg (by simp [npzC4, loadStore]), hconc]
  have hbo : bestOver (createSensorVector defaultConfig 400 400 400 100 100)
      [⟨"NORMAL_NAV", loadNormalizeV vC4, "navigation"⟩]
      = some ("NORMAL_NAV", 1, "navigation") := by
    unfold bestOver
    rw [List.foldl_cons, List.foldl_nil]
    show some ("NORMAL_NAV",
      dotV (loadNormalizeV vC4) (createSensorVector defaultConfig 400 400 400 100 100),
      "navigation") = _
    rw [simC4]
  rw [hbo]
  norm_num

/-- C4 counterexample: on the reachable state `sC4` (five success feedbacks on
`navigation`) with a store containing the exact current situation, `decide()`
at `(400, 400, 400)` emits a decision whose confidence is 3/2 = 1.5 — outside
the claimed interval `[0, 1]`. -/
theorem C4_counterexample :
    (absrDecide defaultConfig npzC4 sC4 0 400 400 400 100 100).1.confidence = 3 / 2 ∧
    ¬ ((absrDecide defaultConfig npzC4 sC4 0 400 400 400 100 100).1.confidence ≤ 1) := by
  obtain ⟨hw, hv, hol, hmnv⟩ := sC4_facts
  have he : ¬ checkEmergencyCondition (400 : ℝ) 400 400 := by
    unfold checkEmergencyCondition
    norm_num
  have ha : ¬ checkAvoidanceCondition (400 : ℝ) 400 400 := by
    unfold checkAvoidanceCondition
    norm_num
  have hC : defaultConfig.chaos_enabled = true ∧
      min (400 : ℝ) (min 400 400) > defaultConfig.chaos_min_safe_distance :=
    ⟨rfl, by norm_num [defaultConfig]⟩
  have hconf : (absrDecide defaultConfig npzC4 sC4 0 400 400 400 100 100).1.confidence
      = 3 / 2 := by
    rw [absrDecide_standard defaultConfig npzC4 sC4 0 400 400 400 100 100 hmnv he ha]
    simp only [standardDecision]
    rw [if_pos hC, fbmC4]
    norm_num [lorenzStep, bumped, hol, hw, matchOL_nil, lookupA, defaultConfig]
  refine ⟨hconf, ?_⟩
  rw [hconf]
  norm_num

end Swarm
